import Mathlib

/-!
# Verification of the read-through fallback/cache layer of the quran-app backend

This file is a shallow embedding of the service layer of the repository:
the Redis cache wrapper (`src/config/database.ts`), the Quran resolver
operations (`quranApiService`), the Hadith resolver operations
(`hadithApiService`), and the Quran seeding job (`seedQuran.ts`).

Conventions of the embedding:
* JavaScript truthiness is modelled explicitly (empty string, `0`,
  `undefined`/`null` are falsy) by the `jsOr`-family of helpers.
* `axios` calls are modelled by an `HttpResult` value supplied by an
  environment record: `.fail st` is a thrown request error (timeout,
  network failure, non-2xx status; `st` is the HTTP status of the
  response when one exists), `.ok code data` is a resolved response whose
  JSON body carries the status field `code` and payload `data`
  (`none` models a missing/empty payload field).
* MongoDB (the local mirror) is modelled by a `DbResult` holding the
  collection contents, `.err` meaning the query throws
  (storage unavailable).
* Redis is a list-backed key/value store with an availability flag; the
  raw client throws (`Except`) when unavailable and the `redisGet` /
  `redisSet` wrappers catch, exactly as in `database.ts`.
* `JSON.stringify`/`JSON.parse` round-tripping of cached values is
  modelled by a typed `CacheVal` sum; keys are namespaced per operation
  exactly as in the source, so a well-typed entry is always read back.
* String helpers are implemented over `List Char` so that all proofs can
  be checked by kernel reduction.
-/

/-! ## JavaScript-semantics helpers -/

/-- JS `a || b` for an optional string: `undefined`/`null` and `""` are falsy. -/
def jsOr (a : Option String) (b : String) : String :=
  match a with
  | some s => if s = "" then b else s
  | none => b

/-- JS `a || b` for an optional number: `undefined`/`null` and `0` are falsy. -/
def jsOrNat (a : Option Nat) (b : Nat) : Nat :=
  match a with
  | some n => if n = 0 then b else n
  | none => b

/-- JS truthiness of an optional string value. -/
def truthyStr (a : Option String) : Bool :=
  match a with
  | some s => s ≠ ""
  | none => false

/-- JS truthiness of an optional number value. -/
def truthyNat (a : Option Nat) : Bool :=
  match a with
  | some n => n ≠ 0
  | none => false

/-- Character-list prefix test (for `String.startsWith` over `.data`). -/
def charsPrefix : List Char → List Char → Bool
  | [], _ => true
  | _ :: _, [] => false
  | a :: as, b :: bs => a = b && charsPrefix as bs

/-- Test `hay.includes(needle)` on character lists (JS `String.prototype.includes`). -/
def charsIncludes : List Char → List Char → Bool
  | [], needle => charsPrefix needle []
  | h :: t, needle => if charsPrefix needle (h :: t) then true else charsIncludes t needle

/-- ASCII lower-casing, enough for the latin search keywords of the repo. -/
def lowerChar (c : Char) : Char :=
  if 'A' ≤ c ∧ c ≤ 'Z' then Char.ofNat (c.toNat + 32) else c

/-- Case-insensitive substring test, modelling both the `$regex/$options: i`
Mongo filters and the JS `toLowerCase().includes(...)` re-filtering. -/
def containsCI (hay needle : String) : Bool :=
  charsIncludes (hay.data.map lowerChar) (needle.data.map lowerChar)

/-- Model of `s.startsWith(p)`. -/
def jsStartsWith (s p : String) : Bool :=
  charsPrefix p.data s.data

/-- Model of `s.includes(c)` for a single character. -/
def strContainsChar (s : String) (c : Char) : Bool :=
  s.data.contains c

/-- Split a character list at a separator character (JS `String.split`). -/
def splitChar (sep : Char) : List Char → List (List Char)
  | [] => [[]]
  | c :: rest =>
    let r := splitChar sep rest
    if c = sep then [] :: r
    else
      match r with
      | [] => [[c]]
      | h :: t => (c :: h) :: t

/-- JS `Number(s)` restricted to the inputs that occur here (decimal digit
strings): `""` is `0`, a digit string is its value, anything else is `NaN`
(modelled as `none`). -/
def jsNumber (s : String) : Option Nat :=
  if s.data = [] then some 0
  else if s.data.all (fun c => c.isDigit) then
    some (s.data.foldl (fun acc c => acc * 10 + (c.toNat - '0'.toNat)) 0)
  else none

/-- Value of a hexadecimal digit. -/
def hexVal (c : Char) : Option Nat :=
  if c.isDigit then some (c.toNat - '0'.toNat)
  else if 'a' ≤ c ∧ c ≤ 'f' then some (c.toNat - 'a'.toNat + 10)
  else if 'A' ≤ c ∧ c ≤ 'F' then some (c.toNat - 'A'.toNat + 10)
  else none

/-- JS `parseInt(s, 16)` for the hex strings produced by `ObjectId.toString()`:
parses the longest hex-digit prefix, `NaN` (`none`) when there is none. -/
def parseIntHex (s : String) : Option Nat :=
  let ds := s.data.takeWhile (fun c => (hexVal c).isSome)
  if ds = [] then none
  else some (ds.foldl (fun acc c => acc * 16 + ((hexVal c).getD 0)) 0)

/-- JS `s.slice(-8)`: the last (at most) 8 characters. -/
def sliceLast8 (s : String) : String :=
  ⟨s.data.drop (s.data.length - 8)⟩

/-- Ceiling division, JS `Math.ceil(a / b)` for naturals (`b > 0`). -/
def ceilDiv (a b : Nat) : Nat := (a + b - 1) / b

/-! ## Filter objects and `JSON.stringify`

A TS filter object is modelled as its runtime property list in insertion
order; `JSON.stringify` serializes in exactly that order. -/

/-- A JSON-able filter value: string or number. -/
inductive FVal where
  | s (v : String)
  | n (v : Nat)
deriving DecidableEq, Repr

/-- A filter object: property list in insertion order. -/
abbrev HFilters := List (String × FVal)

/-- Rendering of a filter value inside `JSON.stringify` output. -/
def FVal.render : FVal → String
  | .s v => "\"" ++ v ++ "\""
  | .n v => toString v

/-- Serialization `JSON.stringify` of a filter object: properties in insertion
order. (The string values appearing in filters contain no characters that
JSON escapes.) -/
def jsonStringifyObj (f : HFilters) : String :=
  "\x7b" ++ String.intercalate "," (f.map (fun p => "\"" ++ p.1 ++ "\":" ++ p.2.render)) ++ "\x7d"

/-- Property lookup on a filter object. -/
def HFilters.get (f : HFilters) (k : String) : Option FVal :=
  (f.find? (fun p => p.1 == k)).map (fun p => p.2)

/-- JS truthiness of `filters.k` for a string-typed field. -/
def HFilters.truthy (f : HFilters) (k : String) : Bool :=
  match f.get k with
  | some (.s v) => v ≠ ""
  | some (.n v) => v ≠ 0
  | none => false

/-- Read `filters.k` as a truthy string (`none` when absent or falsy). -/
def HFilters.getStr (f : HFilters) (k : String) : Option String :=
  match f.get k with
  | some (.s v) => if v = "" then none else some v
  | _ => none

/-- Read `filters.k` as a number (`none` when absent or not numeric). -/
def HFilters.getNat (f : HFilters) (k : String) : Option Nat :=
  match f.get k with
  | some (.n v) => some v
  | _ => none

/-! ## Content data model (from the TS interfaces) -/

/-- Revelation type of a surah (`'Meccan' | 'Medinan'`). -/
inductive RevelationType where
  | Meccan
  | Medinan
deriving DecidableEq, Repr

/-- Remote-shape ayah (`QuranApiAyah` interface). `audio`/`audioSecondary`
are optional properties. -/
structure QuranApiAyah where
  number : Nat
  text : String
  numberInSurah : Nat
  juz : Nat
  manzil : Nat
  page : Nat
  ruku : Nat
  hizbQuarter : Nat
  sajda : Bool
  audio : Option String
  audioSecondary : Option (List String)
deriving DecidableEq, Repr

/-- Remote-shape surah (`QuranApiSurah` interface). -/
structure QuranApiSurah where
  number : Nat
  name : String
  englishName : String
  englishNameTranslation : String
  revelationType : RevelationType
  ayahs : List QuranApiAyah
deriving DecidableEq, Repr

/-- Mirror-shape ayah (`MongoAyah` interface / the seeded sub-document). -/
structure MongoAyah where
  number : Nat
  numberInSurah : Nat
  text : String
  textArabic : String
  translation : Option String
  juz : Nat
  manzil : Nat
  page : Nat
  ruku : Nat
  hizbQuarter : Nat
  sajda : Option Bool
deriving DecidableEq, Repr

/-- Mirror-shape surah (`MongoSurah` interface / the `Surah` model). -/
structure MongoSurah where
  number : Nat
  name : String
  nameArabic : String
  nameTranslation : String
  revelationType : RevelationType
  ayahs : List MongoAyah
deriving DecidableEq, Repr

/-- Remote-shape hadith book (`HadithApiBook` interface);
`aboutWriter` is `string | null`. -/
structure HadithApiBook where
  id : Nat
  bookName : String
  writerName : String
  aboutWriter : Option String
  writerDeath : String
  bookSlug : String
  hadiths_count : String
  chapters_count : String
deriving DecidableEq, Repr

/-- Remote-shape hadith chapter (`HadithApiChapter` interface). -/
structure HadithApiChapter where
  id : Nat
  chapterNumber : String
  chapterEnglish : String
  chapterUrdu : String
  chapterArabic : String
  bookSlug : String
deriving DecidableEq, Repr

/-- Remote-shape hadith (`HadithApiHadith` interface). -/
structure HadithApiHadith where
  id : Nat
  hadithNumber : String
  englishNarrator : String
  hadithEnglish : String
  hadithUrdu : String
  hadithArabic : String
  headingUrdu : String
  headingEnglish : String
  chapterId : String
  bookSlug : String
  volume : String
  status : String
  book : HadithApiBook
  chapter : HadithApiChapter
deriving DecidableEq, Repr

/-- Pagination block (`HadithPagination` interface). -/
structure HadithPagination where
  current_page : Nat
  last_page : Nat
  per_page : Nat
  total : Nat
  lo : Nat
  hi : Nat
deriving DecidableEq, Repr

/-- Result of `getHadiths`: hadith page plus pagination. -/
structure HadithsRes where
  hadiths : List HadithApiHadith
  pagination : HadithPagination
deriving DecidableEq, Repr

/-- Mirror-shape hadith document (the duck-typed argument of
`transformHadithToApiFormat` / the `Hadith` model). `oid` is the Mongo
`_id` rendered by `ObjectId.toString()` (a hex string), `none` when the
document has no `_id`. -/
structure MongoHadith where
  oid : Option String
  hadithNumber : String
  narrator : Option String
  englishText : String
  urduText : Option String
  arabicText : String
  chapterNumber : Option Nat
  collectionName : String
  bookNumber : Option Nat
  book : String
  grade : Option String
  chapter : String
deriving DecidableEq, Repr

/-! ## Remote provider and mirror outcomes -/

/-- Outcome of an `axios.get` call: `.fail st` models a thrown request
error (timeout / network error / non-2xx HTTP status, with `st` the HTTP
status of the response when one exists); `.ok code data` models a
resolved response whose body has status field `code` and payload `data`
(`none` when the payload field is missing / null). -/
inductive HttpResult (α : Type) where
  | fail (status : Option Nat)
  | ok (code : Nat) (data : Option α)
deriving DecidableEq, Repr

/-- Truthiness test used by every resolver: HTTP resolved, body status
200 and a truthy payload field. -/
def HttpResult.success : HttpResult α → Bool
  | .ok 200 (some _) => true
  | _ => false

/-- Outcome of a Mongo query environment: the collection contents, or a
thrown storage error. -/
inductive DbResult (α : Type) where
  | ok (v : α)
  | err
deriving DecidableEq, Repr

/-- Payload shape of an array-or-single JSON field, for the
`Array.isArray(x) ? x : [x]` normalizations in the source. -/
inductive JsArr (α : Type) where
  | arr (l : List α)
  | single (a : α)
deriving DecidableEq, Repr

/-- Normalization `Array.isArray(x) ? x : [x]`. -/
def JsArr.toList : JsArr α → List α
  | .arr l => l
  | .single a => [a]

/-! ## Cache store (the Redis wrapper of `src/config/database.ts`) -/

/-- Typed cached value. In the source every value is a JSON string; keys
are namespaced per operation (`quran:surah:...`, `hadith:id:...`, ...),
so an entry read back under an operation's key always parses to that
operation's payload type, which this sum captures. -/
inductive CacheVal where
  | surah (s : QuranApiSurah)
  | ayah (a : QuranApiAyah)
  | ayahMap (m : List (String × QuranApiAyah))
  | hadith (h : HadithApiHadith)
  | hres (r : HadithsRes)
  | books (bs : List HadithApiBook)
deriving DecidableEq, Repr

/-- Decode a cached surah (`JSON.parse` of a `quran:surah:*` entry). -/
def CacheVal.asSurah : CacheVal → Option QuranApiSurah
  | .surah s => some s
  | _ => none

/-- Decode a cached ayah. -/
def CacheVal.asAyah : CacheVal → Option QuranApiAyah
  | .ayah a => some a
  | _ => none

/-- Decode a cached multi-edition ayah map. -/
def CacheVal.asAyahMap : CacheVal → Option (List (String × QuranApiAyah))
  | .ayahMap m => some m
  | _ => none

/-- Decode a cached hadith. -/
def CacheVal.asHadith : CacheVal → Option HadithApiHadith
  | .hadith h => some h
  | _ => none

/-- Decode a cached `getHadiths` result. -/
def CacheVal.asHRes : CacheVal → Option HadithsRes
  | .hres r => some r
  | _ => none

/-- Decode a cached book list. -/
def CacheVal.asBooks : CacheVal → Option (List HadithApiBook)
  | .books bs => some bs
  | _ => none

/-- State of the cache store: an availability flag (connection up and
responsive) and the stored entries (key, value, optional expiry seconds).
Later writes shadow earlier ones (lookup takes the first match). -/
structure RedisState where
  available : Bool
  store : List (String × CacheVal × Option Nat)
deriving DecidableEq, Repr

/-- Raw client GET: throws when the store is unreachable. -/
def redisClientGet (st : RedisState) (key : String) : Except String (Option CacheVal) :=
  if st.available then .ok ((st.store.find? (fun e => e.1 == key)).map (fun e => e.2.1))
  else .error "Redis connection failed"

/-- Safe GET wrapper `redisGet` (database.ts:152-161): catches any client
error and degrades to a miss (`null`). -/
def redisGet (st : RedisState) (key : String) : Option CacheVal :=
  match redisClientGet st key with
  | .ok v => v
  | .error _ => none

/-- Raw client SET: throws when the store is unreachable. The source uses
`setEx` when `expirySeconds` is truthy and a plain `set` otherwise. -/
def redisClientSet (st : RedisState) (key : String) (v : CacheVal) (expirySeconds : Option Nat) :
    Except String RedisState :=
  if st.available then
    .ok { st with store := (key, v, if truthyNat expirySeconds then expirySeconds else none) :: st.store }
  else .error "Redis connection failed"

/-- Safe SET wrapper `redisSet` (database.ts:164-178): catches any client
error and reports `false` (a no-op), `true` on success. -/
def redisSet (st : RedisState) (key : String) (v : CacheVal) (expirySeconds : Option Nat) :
    Bool × RedisState :=
  match redisClientSet st key v expirySeconds with
  | .ok st2 => (true, st2)
  | .error _ => (false, st)

/-! ## Observable effects of one resolver invocation -/

/-- Effect log of a resolver run: keys read from the cache, (key, ttl)
writes attempted on the cache, and the number of remote-provider and
local-mirror accesses performed. -/
structure Effects where
  cacheGets : List String
  cacheSets : List (String × Option Nat)
  remoteCalls : Nat
  mirrorCalls : Nat
deriving DecidableEq, Repr

/-- Result of one resolver invocation: the returned value, the cache
state afterwards, and the effect log. -/
structure OpOut (α : Type) where
  value : α
  cache : RedisState
  eff : Effects
deriving DecidableEq, Repr

/-! ## Quran resolver operations (`quranApiService.ts`) -/

/-- Default Arabic edition constant. -/
def DEFAULT_ARABIC_EDITION : String := "quran-uthmani"

/-- Helper `transformSurahToApiFormat` (quranApiService): MongoDB surah to
API format, Arabic text. -/
def transformSurahToApiFormat (surah : MongoSurah) : QuranApiSurah :=
  { number := surah.number
    name := surah.nameArabic
    englishName := surah.name
    englishNameTranslation := surah.nameTranslation
    revelationType := surah.revelationType
    ayahs := surah.ayahs.map (fun ayah =>
      { number := ayah.number
        text := ayah.textArabic
        numberInSurah := ayah.numberInSurah
        juz := ayah.juz
        manzil := ayah.manzil
        page := ayah.page
        ruku := ayah.ruku
        hizbQuarter := ayah.hizbQuarter
        sajda := ayah.sajda.getD false
        audio := none
        audioSecondary := none }) }

/-- Helper `transformAyahToApiFormat` (quranApiService): MongoDB ayah to
API format, Arabic text. -/
def transformAyahToApiFormat (ayah : MongoAyah) : QuranApiAyah :=
  { number := ayah.number
    text := ayah.textArabic
    numberInSurah := ayah.numberInSurah
    juz := ayah.juz
    manzil := ayah.manzil
    page := ayah.page
    ruku := ayah.ruku
    hizbQuarter := ayah.hizbQuarter
    sajda := ayah.sajda.getD false
    audio := none
    audioSecondary := none }

/-- English-edition ayah object literal, as inlined in the `en.` fallback
branches of `getSurah` / `getAyah` (text is `ayah.translation || ayah.text`). -/
def englishAyahLiteral (ayah : MongoAyah) : QuranApiAyah :=
  { number := ayah.number
    text := jsOr ayah.translation ayah.text
    numberInSurah := ayah.numberInSurah
    juz := ayah.juz
    manzil := ayah.manzil
    page := ayah.page
    ruku := ayah.ruku
    hizbQuarter := ayah.hizbQuarter
    sajda := ayah.sajda.getD false
    audio := none
    audioSecondary := none }

/-- An ayah reference as passed to `getAyah`: a number or a string
(`"surah:ayah"` or a plain numeral string). -/
inductive Ref where
  | num (n : Nat)
  | str (s : String)
deriving DecidableEq, Repr

/-- String interpolation of a reference into a cache key. -/
def Ref.toKeyString : Ref → String
  | .num n => toString n
  | .str s => s

/-- The test `typeof reference === 'string' && reference.includes(':')`. -/
def Ref.hasColon : Ref → Bool
  | .num _ => false
  | .str s => strContainsChar s ':'

/-- Parsing `reference.split(':').map(Number)` into
`[surahNumber, ayahNumber]`; `none` components model `NaN`. Only used on
the branch where the reference is a string containing `':'`. -/
def Ref.parse : Ref → Option Nat × Option Nat
  | .num n => (some n, none)
  | .str s =>
    match splitChar ':' s.data with
    | p0 :: p1 :: _ => (jsNumber ⟨p0⟩, jsNumber ⟨p1⟩)
    | [p0] => (jsNumber ⟨p0⟩, none)
    | [] => (none, none)

/-- Environment of the Quran resolver: remote responses for the request
made by each operation, and the mirror `surahs` collection. -/
structure QuranEnv where
  remoteSurah : HttpResult QuranApiSurah
  remoteAyah : HttpResult QuranApiAyah
  remoteAyahMulti : HttpResult (List (String × QuranApiAyah))
  remoteSearch : HttpResult (JsArr QuranApiAyah)
  mirror : DbResult (List MongoSurah)
deriving Repr

/-- Cache key of `getSurah`. -/
def surahCacheKey (surahNumber : Nat) (editionId : String) : String :=
  "quran:surah:" ++ toString surahNumber ++ ":" ++ editionId

/-- Mirror query `Surah.findOne({ number: surahNumber })` where the query
value may be `NaN` (`none`), which matches nothing. -/
def mirrorFindSurah (surahs : List MongoSurah) (surahNumber : Option Nat) : Option MongoSurah :=
  surahs.find? (fun s =>
    match surahNumber with
    | some n => s.number == n
    | none => false)

/-- Operation `getSurah` (quranApiService:498-577): cache → remote (12h
TTL) → mirror fallback (1h TTL), `null` on not-found and on any thrown
error (the outer catch). -/
def getSurah (env : QuranEnv) (c : RedisState) (surahNumber : Nat) (edition : Option String) :
    OpOut (Option QuranApiSurah) :=
  let editionId := jsOr edition DEFAULT_ARABIC_EDITION
  let key := surahCacheKey surahNumber editionId
  match redisGet c key with
  | some v => ⟨v.asSurah, c, ⟨[key], [], 0, 0⟩⟩
  | none =>
    match env.remoteSurah with
    | .ok 200 (some surah) =>
      let w := redisSet c key (.surah surah) (some 43200)
      ⟨some surah, w.2, ⟨[key], [(key, some 43200)], 1, 0⟩⟩
    | _ =>
      match env.mirror with
      | .err => ⟨none, c, ⟨[key], [], 1, 1⟩⟩
      | .ok surahs =>
        match mirrorFindSurah surahs (some surahNumber) with
        | none => ⟨none, c, ⟨[key], [], 1, 1⟩⟩
        | some surah =>
          let transformed :=
            if editionId = DEFAULT_ARABIC_EDITION ∨ editionId = "" then
              transformSurahToApiFormat surah
            else if jsStartsWith editionId "en." then
              { number := surah.number
                name := surah.nameArabic
                englishName := surah.name
                englishNameTranslation := surah.nameTranslation
                revelationType := surah.revelationType
                ayahs := surah.ayahs.map englishAyahLiteral }
            else
              transformSurahToApiFormat surah
          let w := redisSet c key (.surah transformed) (some 3600)
          ⟨some transformed, w.2, ⟨[key], [(key, some 3600)], 1, 1⟩⟩

/-- Cache key of `getAyah`. -/
def ayahCacheKey (reference : Ref) (editionId : String) : String :=
  "quran:ayah:" ++ reference.toKeyString ++ ":" ++ editionId

/-- Operation `getAyah` (quranApiService:658-738): cache → remote (24h
TTL) → mirror fallback (24h TTL) — but only for `"surah:ayah"` string
references; numeric-only references return `null` without touching the
mirror. `null` also on any thrown error (the outer catch). -/
def getAyah (env : QuranEnv) (c : RedisState) (reference : Ref) (edition : Option String) :
    OpOut (Option QuranApiAyah) :=
  let editionId := jsOr edition DEFAULT_ARABIC_EDITION
  let key := ayahCacheKey reference editionId
  match redisGet c key with
  | some v => ⟨v.asAyah, c, ⟨[key], [], 0, 0⟩⟩
  | none =>
    match env.remoteAyah with
    | .ok 200 (some ayah) =>
      let w := redisSet c key (.ayah ayah) (some 86400)
      ⟨some ayah, w.2, ⟨[key], [(key, some 86400)], 1, 0⟩⟩
    | _ =>
      if reference.hasColon then
        let p := reference.parse
        match env.mirror with
        | .err => ⟨none, c, ⟨[key], [], 1, 1⟩⟩
        | .ok surahs =>
          match mirrorFindSurah surahs p.1 with
          | none => ⟨none, c, ⟨[key], [], 1, 1⟩⟩
          | some surah =>
            match surah.ayahs.find? (fun a =>
                match p.2 with
                | some n => a.numberInSurah == n
                | none => false) with
            | none => ⟨none, c, ⟨[key], [], 1, 1⟩⟩
            | some ayah =>
              let transformed :=
                if editionId = DEFAULT_ARABIC_EDITION ∨ editionId = "" then
                  transformAyahToApiFormat ayah
                else if jsStartsWith editionId "en." then
                  englishAyahLiteral ayah
                else
                  transformAyahToApiFormat ayah
              let w := redisSet c key (.ayah transformed) (some 86400)
              ⟨some transformed, w.2, ⟨[key], [(key, some 86400)], 1, 1⟩⟩
      else
        ⟨none, c, ⟨[key], [], 1, 0⟩⟩

/-- Cache key of `getAyahMultipleEditions`. -/
def ayahMultiCacheKey (reference : Ref) (editions : List String) : String :=
  "quran:ayah:" ++ reference.toKeyString ++ ":multi:" ++ String.intercalate "," editions

/-- Operation `getAyahMultipleEditions` (quranApiService:741-821): like
`getAyah` but building an edition-keyed object; returns `{}` when the
reference has no `':'`, on a total miss, and on any thrown error. -/
def getAyahMultipleEditions (env : QuranEnv) (c : RedisState) (reference : Ref)
    (editions : List String) : OpOut (List (String × QuranApiAyah)) :=
  let key := ayahMultiCacheKey reference editions
  match redisGet c key with
  | some v => ⟨(v.asAyahMap).getD [], c, ⟨[key], [], 0, 0⟩⟩
  | none =>
    match env.remoteAyahMulti with
    | .ok 200 (some result) =>
      let w := redisSet c key (.ayahMap result) (some 86400)
      ⟨result, w.2, ⟨[key], [(key, some 86400)], 1, 0⟩⟩
    | _ =>
      if reference.hasColon then
        let p := reference.parse
        match env.mirror with
        | .err => ⟨[], c, ⟨[key], [], 1, 1⟩⟩
        | .ok surahs =>
          match mirrorFindSurah surahs p.1 with
          | none => ⟨[], c, ⟨[key], [], 1, 1⟩⟩
          | some surah =>
            match surah.ayahs.find? (fun a =>
                match p.2 with
                | some n => a.numberInSurah == n
                | none => false) with
            | none => ⟨[], c, ⟨[key], [], 1, 1⟩⟩
            | some ayah =>
              let result := editions.filterMap (fun edition =>
                if edition = DEFAULT_ARABIC_EDITION ∨ edition = "" then
                  some (edition, transformAyahToApiFormat ayah)
                else if jsStartsWith edition "en." then
                  some (edition, englishAyahLiteral ayah)
                else none)
              if result.isEmpty then
                ⟨[], c, ⟨[key], [], 1, 1⟩⟩
              else
                let w := redisSet c key (.ayahMap result) (some 86400)
                ⟨result, w.2, ⟨[key], [(key, some 86400)], 1, 1⟩⟩
      else
        ⟨[], c, ⟨[key], [], 1, 0⟩⟩

/-- Surah selector of `searchQuran`: `number | 'all'`. -/
inductive SurahSel where
  | all
  | num (n : Nat)
deriving DecidableEq, Repr

/-- Operation `searchQuran` (quranApiService:1278-1355). It performs no
caching at all: remote search, then mirror regex search on failure
(with Mongo positional `ayahs.$` projection, re-filtered and transformed
in JS), `[]` on any thrown error. -/
def searchQuran (env : QuranEnv) (c : RedisState) (keyword : String) (surah : SurahSel)
    (edition language : Option String) : OpOut (List QuranApiAyah) :=
  match env.remoteSearch with
  | .ok 200 (some d) => ⟨d.toList, c, ⟨[], [], 1, 0⟩⟩
  | _ =>
    match env.mirror with
    | .err => ⟨[], c, ⟨[], [], 1, 1⟩⟩
    | .ok surahs =>
      let useArabic := language == some "ar" || !truthyStr language || !truthyStr edition
        || edition == some DEFAULT_ARABIC_EDITION
      let ayahMatch := fun (a : MongoAyah) =>
        if useArabic then containsCI a.textArabic keyword
        else
          match a.translation with
          | some t => containsCI t keyword
          | none => false
      let found := (surahs.filter (fun s =>
          (match surah with
           | .all => true
           | .num n => s.number == n) && s.ayahs.any ayahMatch)).map
        (fun s => { s with ayahs := (s.ayahs.find? ayahMatch).toList })
      let found := found.take 50
      let ayahs := found.flatMap (fun s =>
        (s.ayahs.filter ayahMatch).map (fun a =>
          if edition == some DEFAULT_ARABIC_EDITION || !truthyStr edition then
            transformAyahToApiFormat a
          else if jsStartsWith (edition.getD "") "en." then
            { transformAyahToApiFormat a with text := jsOr a.translation a.text }
          else
            transformAyahToApiFormat a))
      ⟨ayahs, c, ⟨[], [], 1, 1⟩⟩

/-- Cache key of `getEditions` (quranApiService:399):
`quran:editions:` plus `JSON.stringify(filters || {})`. -/
def editionsCacheKey (filters : Option HFilters) : String :=
  "quran:editions:" ++ jsonStringifyObj (filters.getD [])

/-! ## Hadith resolver operations (`hadithApiService.ts`) -/

/-- Lexicographic string comparison (Mongo ascending sort on a string
field such as `hadithNumber`). -/
def charsLe : List Char → List Char → Bool
  | [], _ => true
  | _ :: _, [] => false
  | a :: as, b :: bs => if a = b then charsLe as bs else decide (a < b)

/-- Bool comparison on `hadithNumber` for the `sort({ hadithNumber: 1 })`
stage of the `getHadiths` fallback. -/
def hadithNumLe (a b : MongoHadith) : Bool :=
  charsLe a.hadithNumber.data b.hadithNumber.data

/-- Stable insertion into a sorted list. -/
def insertByNum (h : MongoHadith) : List MongoHadith → List MongoHadith
  | [] => [h]
  | x :: xs => if hadithNumLe x h then x :: insertByNum h xs else h :: x :: xs

/-- Stable sort by `hadithNumber` (Mongo `sort({ hadithNumber: 1 })`). -/
def sortByHadithNumber (l : List MongoHadith) : List MongoHadith :=
  l.foldr insertByNum []

/-- Numeric id derived from a Mongo `_id`:
`parseInt(_id.toString().slice(-8), 16) || 0`, `0` when there is no
object-shaped `_id`. -/
def objectIdToApiId (oid : Option String) : Nat :=
  match oid with
  | some s => (parseIntHex (sliceLast8 s)).getD 0
  | none => 0

/-- Helper `transformHadithToApiFormat` (hadithApiService:62-97): MongoDB
hadith to the `HadithApiHadith` shape. -/
def transformHadithToApiFormat (hadith : MongoHadith) : HadithApiHadith :=
  { id := objectIdToApiId hadith.oid
    hadithNumber := hadith.hadithNumber
    englishNarrator := hadith.narrator.getD ""
    hadithEnglish := hadith.englishText
    hadithUrdu := hadith.urduText.getD ""
    hadithArabic := hadith.arabicText
    headingUrdu := ""
    headingEnglish := ""
    chapterId := (hadith.chapterNumber.map toString).getD ""
    bookSlug := hadith.collectionName
    volume := ""
    status := hadith.grade.getD ""
    book :=
      { id := hadith.bookNumber.getD 0
        bookName := hadith.book
        writerName := ""
        aboutWriter := none
        writerDeath := ""
        bookSlug := hadith.collectionName
        hadiths_count := "0"
        chapters_count := "0" }
    chapter :=
      { id := hadith.chapterNumber.getD 0
        chapterNumber := (hadith.chapterNumber.map toString).getD ""
        chapterEnglish := hadith.chapter
        chapterUrdu := ""
        chapterArabic := ""
        bookSlug := hadith.collectionName } }

/-- Remote payload of `/hadiths/`: the `hadiths` field with its `data`
page and `pagination` block (either sub-field possibly missing). -/
structure HadithsPayload where
  data : Option (List HadithApiHadith)
  pagination : Option HadithPagination
deriving DecidableEq, Repr

/-- Environment of the Hadith resolver: remote responses for the request
made by each operation, and the mirror `hadiths` collection. -/
structure HadithEnv where
  remoteHadiths : HttpResult HadithsPayload
  remoteHadithById : HttpResult HadithApiHadith
  remoteBooks : HttpResult (List HadithApiBook)
  mirror : DbResult (List MongoHadith)
deriving Repr

/-- Cache key of `getHadiths` (hadithApiService:247):
`hadith:search:` plus `JSON.stringify(filters)`. -/
def hadithsCacheKey (filters : HFilters) : String :=
  "hadith:search:" ++ jsonStringifyObj filters

/-- The `filters.hadithEnglish || filters.hadithUrdu || filters.hadithArabic`
condition guarding every cache read and write in `getHadiths`. -/
def isTextSearch (filters : HFilters) : Bool :=
  filters.truthy "hadithEnglish" || filters.truthy "hadithUrdu" || filters.truthy "hadithArabic"

/-- Mongo query built by the `getHadiths` fallback: one conjunct per
truthy filter field. -/
def hadithQueryMatch (filters : HFilters) (h : MongoHadith) : Bool :=
  (match filters.getStr "book" with
   | some v => h.collectionName == v
   | none => true) &&
  (match filters.getStr "chapter" with
   | some v => containsCI h.chapter v
   | none => true) &&
  (match filters.getStr "hadithNumber" with
   | some v => h.hadithNumber == v
   | none => true) &&
  (match filters.getStr "status" with
   | some v => h.grade == some v
   | none => true) &&
  (match filters.getStr "hadithEnglish" with
   | some v => containsCI h.englishText v
   | none => true) &&
  (match filters.getStr "hadithUrdu" with
   | some v =>
     (match h.urduText with
      | some t => containsCI t v
      | none => false)
   | none => true) &&
  (match filters.getStr "hadithArabic" with
   | some v => containsCI h.arabicText v
   | none => true)

/-- Operation `getHadiths` (hadithApiService:232-376): cache (skipped
entirely for text searches) → remote (12h TTL) → mirror fallback with
query/sort/skip/limit and recomputed pagination (1h TTL); rethrows
(`Except.error`) when the fallback query throws. -/
def getHadiths (env : HadithEnv) (c : RedisState) (filters : HFilters) :
    OpOut (Except String HadithsRes) :=
  let key := hadithsCacheKey filters
  let isSearch := isTextSearch filters
  let getsLog : List String := if isSearch then [] else [key]
  let cached : Option CacheVal := if isSearch then none else redisGet c key
  match cached with
  | some v => ⟨.ok ((v.asHRes).getD ⟨[], ⟨1, 1, 25, 0, 1, 0⟩⟩), c, ⟨getsLog, [], 0, 0⟩⟩
  | none =>
    match env.remoteHadiths with
    | .ok 200 (some payload) =>
      let data := payload.data.getD []
      let pagination := payload.pagination.getD
        ⟨1, 1, 25, (payload.data.map List.length).getD 0, 1, (payload.data.map List.length).getD 0⟩
      let result : HadithsRes := ⟨data, pagination⟩
      if isSearch then
        ⟨.ok result, c, ⟨getsLog, [], 1, 0⟩⟩
      else
        let w := redisSet c key (.hres result) (some 43200)
        ⟨.ok result, w.2, ⟨getsLog, [(key, some 43200)], 1, 0⟩⟩
    | _ =>
      match env.mirror with
      | .err => ⟨.error "db", c, ⟨getsLog, [], 1, 2⟩⟩
      | .ok hs =>
        let matched := hs.filter (hadithQueryMatch filters)
        let sorted := sortByHadithNumber matched
        let page := jsOrNat (filters.getNat "page") 1
        let perPage := jsOrNat (filters.getNat "paginate") 25
        let skip := (page - 1) * perPage
        let pageItems := (sorted.drop skip).take perPage
        let total := matched.length
        let transformed := pageItems.map transformHadithToApiFormat
        let result : HadithsRes :=
          ⟨transformed, ⟨page, ceilDiv total perPage, perPage, total, skip + 1,
            min (skip + perPage) total⟩⟩
        if isSearch then
          ⟨.ok result, c, ⟨getsLog, [], 1, 2⟩⟩
        else
          let w := redisSet c key (.hres result) (some 3600)
          ⟨.ok result, w.2, ⟨getsLog, [(key, some 3600)], 1, 2⟩⟩

/-- Effect-log concatenation, for an operation that invokes another. -/
def Effects.app (a b : Effects) : Effects :=
  ⟨a.cacheGets ++ b.cacheGets, a.cacheSets ++ b.cacheSets,
    a.remoteCalls + b.remoteCalls, a.mirrorCalls + b.mirrorCalls⟩

/-- Operation `getHadithById` (hadithApiService:379-444): cache → remote
by-id endpoint → (on body-level miss or 404) `getHadiths` search with
`{ hadithNumber: id.toString(), paginate: 1 }` → mirror
`findOne({ hadithNumber: id.toString() })`; `null` on not-found and on
any thrown error (the outer catch). A non-404 request error of the by-id
endpoint is rethrown past the search, landing in the database fallback. -/
def getHadithById (env : HadithEnv) (c : RedisState) (id : Nat) :
    OpOut (Option HadithApiHadith) :=
  let key := "hadith:id:" ++ toString id
  let dbFallback := fun (c1 : RedisState) (eff1 : Effects) =>
    match env.mirror with
    | .err => (⟨none, c1, eff1.app ⟨[], [], 0, 1⟩⟩ : OpOut (Option HadithApiHadith))
    | .ok hs =>
      match hs.find? (fun h => h.hadithNumber == toString id) with
      | none => ⟨none, c1, eff1.app ⟨[], [], 0, 1⟩⟩
      | some h =>
        let t := transformHadithToApiFormat h
        let w := redisSet c1 key (.hadith t) (some 86400)
        ⟨some t, w.2, eff1.app ⟨[], [(key, some 86400)], 0, 1⟩⟩
  match redisGet c key with
  | some v => ⟨v.asHadith, c, ⟨[key], [], 0, 0⟩⟩
  | none =>
    match env.remoteHadithById with
    | .ok 200 (some h) =>
      let w := redisSet c key (.hadith h) (some 86400)
      ⟨some h, w.2, ⟨[key], [(key, some 86400)], 1, 0⟩⟩
    | .fail (some 404) =>
      let sr := getHadiths env c [("hadithNumber", .s (toString id)), ("paginate", .n 1)]
      let eff1 := Effects.app ⟨[key], [], 1, 0⟩ sr.eff
      match sr.value with
      | .error _ => dbFallback sr.cache eff1
      | .ok res =>
        match res.hadiths with
        | h :: _ =>
          let w := redisSet sr.cache key (.hadith h) (some 86400)
          ⟨some h, w.2, eff1.app ⟨[], [(key, some 86400)], 0, 0⟩⟩
        | [] => dbFallback sr.cache eff1
    | .fail _ => dbFallback c ⟨[key], [], 1, 0⟩
    | .ok _ _ =>
      let sr := getHadiths env c [("hadithNumber", .s (toString id)), ("paginate", .n 1)]
      let eff1 := Effects.app ⟨[key], [], 1, 0⟩ sr.eff
      match sr.value with
      | .error _ => dbFallback sr.cache eff1
      | .ok res =>
        match res.hadiths with
        | h :: _ =>
          let w := redisSet sr.cache key (.hadith h) (some 86400)
          ⟨some h, w.2, eff1.app ⟨[], [(key, some 86400)], 0, 0⟩⟩
        | [] => dbFallback sr.cache eff1

/-- First-occurrence deduplication (Mongo `distinct` preserving scan
order, as observed on the `collectionName` field). -/
def dedupFirst (l : List String) : List String :=
  l.foldl (fun acc x => if acc.contains x then acc else acc ++ [x]) []

/-- The book list the `getBooks` fallback aggregates from the mirror:
for each distinct `collectionName`, a `countDocuments` plus a `findOne`
feed an `HadithApiBook` literal. -/
def fallbackBooks (hs : List MongoHadith) : List HadithApiBook :=
  (dedupFirst (hs.map (fun h => h.collectionName))).filterMap (fun collection =>
    let hadithCount := (hs.filter (fun h => h.collectionName == collection)).length
    match hs.find? (fun h => h.collectionName == collection) with
    | some bookInfo =>
      some
        { id := bookInfo.bookNumber.getD 0
          bookName := bookInfo.book
          writerName := ""
          aboutWriter := none
          writerDeath := ""
          bookSlug := collection
          hadiths_count := toString hadithCount
          chapters_count := "0" }
    | none => none)

/-- Operation `getBooks` (hadithApiService:100-166): cache → remote (24h
TTL) → mirror aggregation over `distinct`/`count`/`findOne` (1h TTL);
rethrows (`Except.error`) when the mirror throws or both tiers are
empty. -/
def getBooks (env : HadithEnv) (c : RedisState) : OpOut (Except String (List HadithApiBook)) :=
  let key := "hadith:books"
  match redisGet c key with
  | some v => ⟨.ok ((v.asBooks).getD []), c, ⟨[key], [], 0, 0⟩⟩
  | none =>
    match env.remoteBooks with
    | .ok 200 (some books) =>
      let w := redisSet c key (.books books) (some 86400)
      ⟨.ok books, w.2, ⟨[key], [(key, some 86400)], 1, 0⟩⟩
    | _ =>
      match env.mirror with
      | .err => ⟨.error "db", c, ⟨[key], [], 1, 1⟩⟩
      | .ok hs =>
        let collections := dedupFirst (hs.map (fun h => h.collectionName))
        let books := fallbackBooks hs
        if books.isEmpty then
          ⟨.error "empty", c, ⟨[key], [], 1, 1 + 2 * collections.length⟩⟩
        else
          let w := redisSet c key (.books books) (some 3600)
          ⟨.ok books, w.2, ⟨[key], [(key, some 3600)], 1, 1 + 2 * collections.length⟩⟩

/-! ## Quran seeding job (`scripts/seedQuran.ts`) -/

/-- Outcome of one fetch attempt during seeding. -/
inductive FetchOutcome (α : Type) where
  | ok (v : α)
  | err
deriving DecidableEq, Repr

/-- Payload of a full-Quran fetch (`QuranApiResponse['data']`). -/
structure QuranData where
  surahs : List QuranApiSurah
deriving DecidableEq, Repr

/-- Surah metadata reference (`QuranApiSurahMeta`). -/
structure QuranApiSurahMeta where
  number : Nat
  name : String
  englishName : String
  englishNameTranslation : String
  revelationType : RevelationType
  numberOfAyahs : Nat
deriving DecidableEq, Repr

/-- Environment of the seeding job: the outcome of the i-th attempt of
each of the three fetches. -/
structure SeedEnv where
  arabic : Nat → FetchOutcome QuranData
  english : Nat → FetchOutcome QuranData
  meta : Nat → FetchOutcome (List QuranApiSurahMeta)

/-- Result of one `while (retries > 0)` fetch loop of `seedQuran`:
the fetched value if any attempt succeeded, the number of attempts made,
and the backoff delays (ms) slept between attempts. -/
structure RetryRes (α : Type) where
  value : Option α
  attempts : Nat
  delays : List Nat
deriving Repr

/-- The retry loop of `seedQuran`: up to `r` attempts of `f` starting at
attempt index `i`, sleeping 2000 ms between consecutive attempts. -/
def retryGo (f : Nat → FetchOutcome α) : Nat → Nat → RetryRes α
  | _, 0 => ⟨none, 0, []⟩
  | i, r + 1 =>
    match f i with
    | .ok v => ⟨some v, 1, []⟩
    | .err =>
      if r = 0 then ⟨none, 1, []⟩
      else
        let rest := retryGo f (i + 1) r
        ⟨rest.value, rest.attempts + 1, 2000 :: rest.delays⟩

/-- A document passed to `Surah.create` by the seeding loop. -/
structure SeededSurah where
  number : Nat
  name : String
  nameArabic : String
  nameTranslation : String
  revelationType : RevelationType
  numberOfAyahs : Nat
  ayahs : List MongoAyah
deriving DecidableEq, Repr

/-- Output of a completed seeding run: the mirror contents after the
clear-then-insert (the collection is `deleteMany({})`-ed first), plus the
attempt counts and backoff delays of the three fetches. -/
structure SeedOut where
  docs : List SeededSurah
  arabicAttempts : Nat
  englishAttempts : Nat
  metaAttempts : Nat
  delays : List Nat
deriving Repr

/-- The seeding job `seedQuran` (scripts/seedQuran.ts): clears the
collection, fetches Arabic text / English translation / metadata with the
retry loop, aborts (`Except.error`, i.e. `process.exit(1)`) when the
Arabic or metadata fetch is still failing after its retries, but
continues with an empty translation when the English fetch fails; then
inserts one document per metadata reference that has Arabic ayahs. -/
def seedQuran (env : SeedEnv) : Except String SeedOut :=
  let ar := retryGo env.arabic 0 3
  match ar.value with
  | none => .error "arabic"
  | some arabicData =>
    let en := retryGo env.english 0 3
    let englishData : QuranData :=
      match en.value with
      | some d => d
      | none => ⟨[]⟩
    let me := retryGo env.meta 0 3
    match me.value with
    | none => .error "meta"
    | some surahsMeta =>
      let docs := surahsMeta.filterMap (fun m =>
        match arabicData.surahs.find? (fun s => s.number == m.number) with
        | none => none
        | some arabicSurah =>
          let englishSurah := englishData.surahs.find? (fun s => s.number == m.number)
          let ayahs := arabicSurah.ayahs.enum.map (fun (p : Nat × QuranApiAyah) =>
            let arabicAyah := p.2
            let englishAyah := (englishSurah.map (fun s => s.ayahs)).getD [] |>.get? p.1
            ({ number := arabicAyah.number
               numberInSurah := arabicAyah.numberInSurah
               text := jsOr (englishAyah.map (fun a => a.text)) ""
               textArabic := arabicAyah.text
               translation := some (jsOr (englishAyah.map (fun a => a.text)) "")
               juz := arabicAyah.juz
               manzil := arabicAyah.manzil
               page := arabicAyah.page
               ruku := arabicAyah.ruku
               hizbQuarter := arabicAyah.hizbQuarter
               sajda := some arabicAyah.sajda } : MongoAyah))
          some
            ({ number := m.number
               name := m.englishName
               nameArabic := m.name
               nameTranslation := m.englishNameTranslation
               revelationType := m.revelationType
               numberOfAyahs := m.numberOfAyahs
               ayahs := ayahs } : SeededSurah))
      .ok ⟨docs, ar.attempts, en.attempts, me.attempts, ar.delays ++ en.delays ++ me.delays⟩

/-! ## JSON shapes of the returned values (for shape equivalence)

The `Json` type models the JSON document a value serializes to; the shape
predicates check the field set and field types declared by the remote
provider's TS interfaces. -/

/-- A JSON document. -/
inductive Json where
  | str (s : String)
  | num (n : Nat)
  | bool (b : Bool)
  | null
  | arr (l : List Json)
  | obj (fields : List (String × Json))

/-- Access a field of a JSON object. -/
def Json.getField (j : Json) (k : String) : Option Json :=
  match j with
  | .obj fs => (fs.find? (fun p => p.1 == k)).map (fun p => p.2)
  | _ => none

/-- Test for a JSON string. -/
def Json.isStr : Json → Bool
  | .str _ => true
  | _ => false

/-- Test for a JSON number. -/
def Json.isNum : Json → Bool
  | .num _ => true
  | _ => false

/-- Test for a JSON boolean. -/
def Json.isBool : Json → Bool
  | .bool _ => true
  | _ => false

/-- Test for a JSON array of strings. -/
def Json.isStrArr : Json → Bool
  | .arr l => l.all Json.isStr
  | _ => false

/-- Keys of a JSON object. -/
def Json.keys : Json → List String
  | .obj fs => fs.map (fun p => p.1)
  | _ => []

/-- Required field check: present and of the given type. -/
def reqField (fs : List (String × Json)) (k : String) (ty : Json → Bool) : Bool :=
  match (fs.find? (fun p => p.1 == k)).map (fun p => p.2) with
  | some v => ty v
  | none => false

/-- Optional field check: absent, or present and of the given type. -/
def optField (fs : List (String × Json)) (k : String) (ty : Json → Bool) : Bool :=
  match (fs.find? (fun p => p.1 == k)).map (fun p => p.2) with
  | some v => ty v
  | none => true

/-- JSON encoding of a `QuranApiAyah` value: the nine required interface
fields plus the optional audio fields when present (a TS optional
property is omitted from `JSON.stringify` output when `undefined`). -/
def encodeQuranAyah (a : QuranApiAyah) : Json :=
  .obj ([("number", .num a.number), ("text", .str a.text),
    ("numberInSurah", .num a.numberInSurah), ("juz", .num a.juz),
    ("manzil", .num a.manzil), ("page", .num a.page), ("ruku", .num a.ruku),
    ("hizbQuarter", .num a.hizbQuarter), ("sajda", .bool a.sajda)]
    ++ (match a.audio with
        | some s => [("audio", Json.str s)]
        | none => [])
    ++ (match a.audioSecondary with
        | some l => [("audioSecondary", Json.arr (l.map Json.str))]
        | none => []))

/-- JSON encoding of a `QuranApiSurah` value. -/
def encodeQuranSurah (s : QuranApiSurah) : Json :=
  .obj [("number", .num s.number), ("name", .str s.name),
    ("englishName", .str s.englishName),
    ("englishNameTranslation", .str s.englishNameTranslation),
    ("revelationType", .str (match s.revelationType with
      | .Meccan => "Meccan"
      | .Medinan => "Medinan")),
    ("ayahs", .arr (s.ayahs.map encodeQuranAyah))]

/-- Shape of the `QuranApiAyah` interface: the nine required fields with
their declared types, the two optional audio fields, and nothing else. -/
def isQuranApiAyahJson (j : Json) : Bool :=
  match j with
  | .obj fs =>
    reqField fs "number" Json.isNum && reqField fs "text" Json.isStr &&
    reqField fs "numberInSurah" Json.isNum && reqField fs "juz" Json.isNum &&
    reqField fs "manzil" Json.isNum && reqField fs "page" Json.isNum &&
    reqField fs "ruku" Json.isNum && reqField fs "hizbQuarter" Json.isNum &&
    reqField fs "sajda" Json.isBool &&
    optField fs "audio" Json.isStr && optField fs "audioSecondary" Json.isStrArr &&
    fs.all (fun p => ["number", "text", "numberInSurah", "juz", "manzil", "page",
      "ruku", "hizbQuarter", "sajda", "audio", "audioSecondary"].contains p.1)
  | _ => false

/-- Shape of the `QuranApiSurah` interface. -/
def isQuranApiSurahJson (j : Json) : Bool :=
  match j with
  | .obj fs =>
    reqField fs "number" Json.isNum && reqField fs "name" Json.isStr &&
    reqField fs "englishName" Json.isStr &&
    reqField fs "englishNameTranslation" Json.isStr &&
    reqField fs "revelationType" (fun v =>
      match v with
      | .str s => s = "Meccan" || s = "Medinan"
      | _ => false) &&
    reqField fs "ayahs" (fun v =>
      match v with
      | .arr l => l.all isQuranApiAyahJson
      | _ => false) &&
    fs.all (fun p => ["number", "name", "englishName", "englishNameTranslation",
      "revelationType", "ayahs"].contains p.1)
  | _ => false

/-- JSON encoding of a `HadithApiBook` value (`aboutWriter` is
`string | null`, so the field is always present). -/
def encodeHadithBook (b : HadithApiBook) : Json :=
  .obj [("id", .num b.id), ("bookName", .str b.bookName),
    ("writerName", .str b.writerName),
    ("aboutWriter", match b.aboutWriter with
      | some s => Json.str s
      | none => Json.null),
    ("writerDeath", .str b.writerDeath), ("bookSlug", .str b.bookSlug),
    ("hadiths_count", .str b.hadiths_count), ("chapters_count", .str b.chapters_count)]

/-- JSON encoding of a `HadithApiChapter` value. -/
def encodeHadithChapter (ch : HadithApiChapter) : Json :=
  .obj [("id", .num ch.id), ("chapterNumber", .str ch.chapterNumber),
    ("chapterEnglish", .str ch.chapterEnglish), ("chapterUrdu", .str ch.chapterUrdu),
    ("chapterArabic", .str ch.chapterArabic), ("bookSlug", .str ch.bookSlug)]

/-- JSON encoding of a `HadithApiHadith` value. -/
def encodeHadith (h : HadithApiHadith) : Json :=
  .obj [("id", .num h.id), ("hadithNumber", .str h.hadithNumber),
    ("englishNarrator", .str h.englishNarrator), ("hadithEnglish", .str h.hadithEnglish),
    ("hadithUrdu", .str h.hadithUrdu), ("hadithArabic", .str h.hadithArabic),
    ("headingUrdu", .str h.headingUrdu), ("headingEnglish", .str h.headingEnglish),
    ("chapterId", .str h.chapterId), ("bookSlug", .str h.bookSlug),
    ("volume", .str h.volume), ("status", .str h.status),
    ("book", encodeHadithBook h.book), ("chapter", encodeHadithChapter h.chapter)]

/-- Shape of the `HadithApiBook` interface. -/
def isHadithApiBookJson (j : Json) : Bool :=
  match j with
  | .obj fs =>
    reqField fs "id" Json.isNum && reqField fs "bookName" Json.isStr &&
    reqField fs "writerName" Json.isStr &&
    reqField fs "aboutWriter" (fun v =>
      match v with
      | .str _ => true
      | .null => true
      | _ => false) &&
    reqField fs "writerDeath" Json.isStr && reqField fs "bookSlug" Json.isStr &&
    reqField fs "hadiths_count" Json.isStr && reqField fs "chapters_count" Json.isStr &&
    fs.all (fun p => ["id", "bookName", "writerName", "aboutWriter", "writerDeath",
      "bookSlug", "hadiths_count", "chapters_count"].contains p.1)
  | _ => false

/-- Shape of the `HadithApiChapter` interface. -/
def isHadithApiChapterJson (j : Json) : Bool :=
  match j with
  | .obj fs =>
    reqField fs "id" Json.isNum && reqField fs "chapterNumber" Json.isStr &&
    reqField fs "chapterEnglish" Json.isStr && reqField fs "chapterUrdu" Json.isStr &&
    reqField fs "chapterArabic" Json.isStr && reqField fs "bookSlug" Json.isStr &&
    fs.all (fun p => ["id", "chapterNumber", "chapterEnglish", "chapterUrdu",
      "chapterArabic", "bookSlug"].contains p.1)
  | _ => false

/-- Shape of the `HadithApiHadith` interface. -/
def isHadithApiHadithJson (j : Json) : Bool :=
  match j with
  | .obj fs =>
    reqField fs "id" Json.isNum && reqField fs "hadithNumber" Json.isStr &&
    reqField fs "englishNarrator" Json.isStr && reqField fs "hadithEnglish" Json.isStr &&
    reqField fs "hadithUrdu" Json.isStr && reqField fs "hadithArabic" Json.isStr &&
    reqField fs "headingUrdu" Json.isStr && reqField fs "headingEnglish" Json.isStr &&
    reqField fs "chapterId" Json.isStr && reqField fs "bookSlug" Json.isStr &&
    reqField fs "volume" Json.isStr && reqField fs "status" Json.isStr &&
    reqField fs "book" isHadithApiBookJson && reqField fs "chapter" isHadithApiChapterJson &&
    fs.all (fun p => ["id", "hadithNumber", "englishNarrator", "hadithEnglish",
      "hadithUrdu", "hadithArabic", "headingUrdu", "headingEnglish", "chapterId",
      "bookSlug", "volume", "status", "book", "chapter"].contains p.1)
  | _ => false

/-! ## Sample data for concrete runs -/

/-- A mirror ayah (Surah 2, ayah 255). -/
def sampleMongoAyah : MongoAyah :=
  ⟨262, 255, "Allah! There is no deity", "ar-2-255", some "Allah! There is no deity", 3, 1, 42, 4, 17, some false⟩

/-- A mirror surah (Surah 2) holding `sampleMongoAyah`. -/
def sampleMongoSurah : MongoSurah :=
  ⟨2, "Al-Baqarah", "ar-name-2", "The Cow", .Medinan, [sampleMongoAyah]⟩

/-- A remote-shape ayah. -/
def sampleApiAyah : QuranApiAyah :=
  ⟨262, "remote-2-255", 255, 3, 1, 42, 4, 17, false, none, none⟩

/-- A remote-shape surah (Surah 2). -/
def sampleApiSurah : QuranApiSurah :=
  ⟨2, "ar-name-2", "Al-Baqarah", "The Cow", .Medinan, [sampleApiAyah]⟩

/-- An empty, reachable cache. -/
def emptyCache : RedisState := ⟨true, []⟩

/-- An unreachable cache. -/
def deadCache : RedisState := ⟨false, []⟩

/-- Quran environment: remote down entirely, mirror holds Surah 2. -/
def qEnvRemoteDown : QuranEnv :=
  ⟨.fail none, .fail none, .fail none, .fail none, .ok [sampleMongoSurah]⟩

/-- Quran environment: remote answers every request. -/
def qEnvRemoteOk : QuranEnv :=
  ⟨.ok 200 (some sampleApiSurah), .ok 200 (some sampleApiAyah),
    .ok 200 (some [("quran-uthmani", sampleApiAyah)]), .ok 200 (some (.arr [sampleApiAyah])),
    .ok [sampleMongoSurah]⟩

/-- Quran environment: surah endpoint resolves with HTTP success but an
empty payload; mirror holds Surah 2. -/
def qEnvSurahEmptyPayload : QuranEnv :=
  ⟨.ok 200 none, .fail none, .fail none, .fail none, .ok [sampleMongoSurah]⟩

/-- Quran environment: remote down and the mirror query throws. -/
def qEnvMirrorErr : QuranEnv :=
  ⟨.fail none, .fail none, .fail none, .fail none, .err⟩

/-- Quran environment: remote down and the mirror is empty. -/
def qEnvEmptyMirror : QuranEnv :=
  ⟨.fail none, .fail none, .fail none, .fail none, .ok []⟩

/-- A mirror hadith document. -/
def sampleMongoHadith : MongoHadith :=
  ⟨some "64b2f0c9e4b0a1d2c3f4e5a6", "1", some "Abu Huraira", "english text", none,
    "arabic text", some 1, "sahih-bukhari", some 1, "Sahih Bukhari", some "Sahih", "Revelation"⟩

/-- Hadith environment: remote down entirely, mirror holds one hadith. -/
def hEnvRemoteDown : HadithEnv :=
  ⟨.fail none, .fail none, .fail none, .ok [sampleMongoHadith]⟩

/-- Hadith environment: the by-id endpoint resolves with HTTP success but
an empty payload, the search endpoint is down, and the mirror holds one
hadith. -/
def hEnvByIdEmptyPayload : HadithEnv :=
  ⟨.fail none, .ok 200 none, .fail none, .ok [sampleMongoHadith]⟩

/-- A remote-shape hadith book. -/
def sampleHadithBook : HadithApiBook :=
  ⟨1, "Sahih Bukhari", "Imam Bukhari", none, "256 AH", "sahih-bukhari", "7563", "99"⟩

/-- Hadith environment: the books endpoint answers, the rest is down. -/
def hEnvBooksOk : HadithEnv :=
  ⟨.fail none, .fail none, .ok 200 (some [sampleHadithBook]), .ok [sampleMongoHadith]⟩

/-- Surah metadata reference for Surah 2. -/
def sampleSurahMeta : QuranApiSurahMeta :=
  ⟨2, "ar-name-2", "Al-Baqarah", "The Cow", .Medinan, 1⟩

/-- Seeding environment: every fetch succeeds on the first attempt. -/
def seedEnvAllOk : SeedEnv :=
  ⟨fun _ => .ok ⟨[sampleApiSurah]⟩, fun _ => .ok ⟨[sampleApiSurah]⟩,
    fun _ => .ok [sampleSurahMeta]⟩

/-- Seeding environment: the English-translation fetch fails on every
attempt, the Arabic and metadata fetches succeed. -/
def seedEnvEnglishFails : SeedEnv :=
  ⟨fun _ => .ok ⟨[sampleApiSurah]⟩, fun _ => .err, fun _ => .ok [sampleSurahMeta]⟩

/-- Seeding environment: the Arabic fetch fails on every attempt. -/
def seedEnvArabicFails : SeedEnv :=
  ⟨fun _ => .err, fun _ => .ok ⟨[sampleApiSurah]⟩, fun _ => .ok [sampleSurahMeta]⟩

/-! ## Basic cache-store lemmas -/

/-- A GET against an unreachable store degrades to a miss. -/
theorem redisGet_unavailable (st : RedisState) (key : String) (h : st.available = false) :
    redisGet st key = none := by
  simp [redisGet, redisClientGet, h]

/-- A SET against an unreachable store is a reported no-op. -/
theorem redisSet_unavailable (st : RedisState) (key : String) (v : CacheVal)
    (e : Option Nat) (h : st.available = false) :
    redisSet st key v e = (false, st) := by
  simp [redisSet, redisClientSet, h]

/-- Reading back the key just written on an available store. -/
theorem redisGet_redisSet_same (st : RedisState) (key : String) (v : CacheVal)
    (e : Option Nat) (h : st.available = true) :
    redisGet (redisSet st key v e).2 key = some v := by
  simp [redisGet, redisClientGet, redisSet, redisClientSet, h, List.find?]

/-- A write leaves the store's availability unchanged. -/
theorem redisSet_preserves_available (st : RedisState) (key : String) (v : CacheVal)
    (e : Option Nat) : (redisSet st key v e).2.available = st.available := by
  by_cases h : st.available = true
  · simp [redisSet, redisClientSet, h]
  · simp at h
    simp [redisSet, redisClientSet, h]

/-! ## Shared resolver lemmas -/

/-- On a cache miss, `getHadiths` performs exactly one remote attempt. -/
theorem getHadiths_remote_one (env : HadithEnv) (c : RedisState) (f : HFilters)
    (hm : redisGet c (hadithsCacheKey f) = none) :
    (getHadiths env c f).eff.remoteCalls = 1 := by
  simp only [getHadiths, hm, ite_self]
  split
  · split <;> rfl
  · split
    · rfl
    · split <;> rfl

/-! ## Claims -/

/-- Claim C1: unavailability of the cache store never makes a read
operation fail — `redisGet` degrades to a miss instead of throwing,
`redisSet` reports `false` instead of throwing and leaves the state
unchanged, and `getSurah` / `getAyah` run against an unreachable cache
return exactly the value they return against any cache that misses,
i.e. the result computed from the remote provider or the local mirror. -/
theorem C1_cache_unavailability_never_fails (env : QuranEnv) (c c2 c3 : RedisState)
    (key : String) (v : CacheVal) (e : Option Nat) (n : Nat) (r : Ref) (ed ed2 : Option String)
    (h : c.available = false ∧
      redisGet c2 (surahCacheKey n (jsOr ed DEFAULT_ARABIC_EDITION)) = none ∧
      redisGet c3 (ayahCacheKey r (jsOr ed2 DEFAULT_ARABIC_EDITION)) = none) :
    redisGet c key = none ∧
    redisSet c key v e = (false, c) ∧
    (getSurah env c n ed).value = (getSurah env c2 n ed).value ∧
    (getSurah env c n ed).cache = c ∧
    (getAyah env c r ed2).value = (getAyah env c3 r ed2).value ∧
    (getAyah env c r ed2).cache = c := by
  obtain ⟨hc, hm, hm2⟩ := h
  have h1 : ∀ k, redisGet c k = none := fun k => redisGet_unavailable c k hc
  refine ⟨h1 key, redisSet_unavailable c key v e hc, ?_, ?_, ?_, ?_⟩
  · simp only [getSurah, h1, hm]
    split
    · rfl
    · split
      · rfl
      · split <;> rfl
  · simp only [getSurah, h1]
    split
    · simp [redisSet_unavailable _ _ _ _ hc]
    · split
      · rfl
      · split
        · rfl
        · simp [redisSet_unavailable _ _ _ _ hc]
  · simp only [getAyah, h1, hm2]
    split
    · rfl
    · split
      · split
        · rfl
        · split
          · rfl
          · split
            · rfl
            · rfl
      · rfl
  · simp only [getAyah, h1]
    split
    · simp [redisSet_unavailable _ _ _ _ hc]
    · split
      · split
        · rfl
        · split
          · rfl
          · split
            · rfl
            · simp [redisSet_unavailable _ _ _ _ hc]
      · rfl

/-- Witness for C1 at concrete inputs: an unreachable cache against an
empty reachable one, with the remote down and the mirror populated. -/
theorem C1_cache_unavailability_never_fails_witness :
    (deadCache.available = false ∧
      redisGet emptyCache (surahCacheKey 2 (jsOr none DEFAULT_ARABIC_EDITION)) = none ∧
      redisGet emptyCache (ayahCacheKey (.str "2:255") (jsOr none DEFAULT_ARABIC_EDITION)) = none) ∧
    (redisGet deadCache "quran:surah:2:quran-uthmani" = none ∧
      redisSet deadCache "quran:surah:2:quran-uthmani" (.surah sampleApiSurah) (some 43200) =
        (false, deadCache) ∧
      (getSurah qEnvRemoteDown deadCache 2 none).value =
        (getSurah qEnvRemoteDown emptyCache 2 none).value ∧
      (getSurah qEnvRemoteDown deadCache 2 none).cache = deadCache ∧
      (getAyah qEnvRemoteDown deadCache (.str "2:255") none).value =
        (getAyah qEnvRemoteDown emptyCache (.str "2:255") none).value ∧
      (getAyah qEnvRemoteDown deadCache (.str "2:255") none).cache = deadCache) :=
  ⟨by decide,
    C1_cache_unavailability_never_fails qEnvRemoteDown deadCache emptyCache emptyCache
      "quran:surah:2:quran-uthmani" (.surah sampleApiSurah) (some 43200) 2 (.str "2:255")
      none none (by decide)⟩

/-- Counterexample to claim C2 as stated: with the remote down, a mirror
failure (`Surah.findOne` throwing) and a missing record produce the very
same `null` from `getSurah` and from `getAyah` — the outcomes are not
distinguishable. -/
theorem C2_counterexample :
    (getSurah qEnvMirrorErr emptyCache 2 none).value = none ∧
    (getSurah qEnvEmptyMirror emptyCache 2 none).value = none ∧
    (getSurah qEnvMirrorErr emptyCache 2 none).value =
      (getSurah qEnvEmptyMirror emptyCache 2 none).value ∧
    (getAyah qEnvMirrorErr emptyCache (.str "2:255") none).value = none ∧
    (getAyah qEnvEmptyMirror emptyCache (.str "2:255") none).value = none ∧
    (getAyah qEnvMirrorErr emptyCache (.str "2:255") none).value =
      (getAyah qEnvEmptyMirror emptyCache (.str "2:255") none).value := by
  decide

/-- Claim C2 (amended): when the remote attempt has failed and the local
mirror query itself fails, `getSurah` and `getAyah` catch the failure in
their outer `catch` and return `null` — the same outcome as a missing
record, not a distinguishable hard failure. -/
theorem C2_mirror_failure_returns_null (env : QuranEnv) (c c2 : RedisState) (n : Nat) (r : Ref)
    (ed ed2 : Option String)
    (h : redisGet c (surahCacheKey n (jsOr ed DEFAULT_ARABIC_EDITION)) = none ∧
      redisGet c2 (ayahCacheKey r (jsOr ed2 DEFAULT_ARABIC_EDITION)) = none ∧
      env.remoteSurah.success = false ∧
      env.remoteAyah.success = false ∧
      env.mirror = .err) :
    (getSurah env c n ed).value = none ∧
    (getAyah env c2 r ed2).value = none := by
  obtain ⟨hm, hm2, hr, hr2, hmir⟩ := h
  constructor
  · simp only [getSurah, hm]
    split
    · rename_i heq
      rw [heq] at hr
      simp [HttpResult.success] at hr
    · simp [hmir]
  · simp only [getAyah, hm2]
    split
    · rename_i heq
      rw [heq] at hr2
      simp [HttpResult.success] at hr2
    · simp only [hmir]
      split <;> rfl

/-- Witness for the amended C2 at concrete inputs. -/
theorem C2_mirror_failure_returns_null_witness :
    (redisGet emptyCache (surahCacheKey 2 (jsOr none DEFAULT_ARABIC_EDITION)) = none ∧
      redisGet emptyCache (ayahCacheKey (.str "2:255") (jsOr none DEFAULT_ARABIC_EDITION)) = none ∧
      qEnvMirrorErr.remoteSurah.success = false ∧
      qEnvMirrorErr.remoteAyah.success = false ∧
      qEnvMirrorErr.mirror = .err) ∧
    ((getSurah qEnvMirrorErr emptyCache 2 none).value = none ∧
      (getAyah qEnvMirrorErr emptyCache (.str "2:255") none).value = none) :=
  ⟨by decide,
    C2_mirror_failure_returns_null qEnvMirrorErr emptyCache emptyCache 2 (.str "2:255") none none
      (by decide)⟩

/-- Counterexample to claim C3 as stated: on an HTTP-success response
with an empty payload, `getSurah` does query the local mirror (one mirror
call, and the value is mirror-sourced, not a `null` not-found), and
`getHadithById` goes on to the search endpoint and the mirror as well. -/
theorem C3_counterexample :
    (getSurah qEnvSurahEmptyPayload emptyCache 2 none).eff.mirrorCalls = 1 ∧
    (getSurah qEnvSurahEmptyPayload emptyCache 2 none).value =
      some (transformSurahToApiFormat sampleMongoSurah) ∧
    (getHadithById hEnvByIdEmptyPayload emptyCache 1).eff.mirrorCalls = 2 ∧
    (getHadithById hEnvByIdEmptyPayload emptyCache 1).value.isSome = true := by
  decide

/-- Claim C3 (amended): a remote response that resolves with HTTP success
but an empty / not-found payload is treated exactly like a remote error:
`getSurah` falls through to the local mirror (exactly one mirror query,
and `null` only if that query also misses), and `getHadithById` proceeds
to its second remote attempt (the search endpoint) rather than returning
a terminal not-found. -/
theorem C3_empty_payload_falls_back (env : QuranEnv) (henv : HadithEnv) (c c2 : RedisState)
    (n id : Nat) (ed : Option String) (code code2 : Nat) (d : Option QuranApiSurah)
    (d2 : Option HadithApiHadith)
    (h : redisGet c (surahCacheKey n (jsOr ed DEFAULT_ARABIC_EDITION)) = none ∧
      env.remoteSurah = .ok code d ∧
      (code ≠ 200 ∨ d = none) ∧
      redisGet c2 ("hadith:id:" ++ toString id) = none ∧
      redisGet c2 (hadithsCacheKey [("hadithNumber", .s (toString id)), ("paginate", .n 1)]) = none ∧
      henv.remoteHadithById = .ok code2 d2 ∧
      (code2 ≠ 200 ∨ d2 = none)) :
    (getSurah env c n ed).eff.mirrorCalls = 1 ∧
    (∀ surahs, env.mirror = .ok surahs → mirrorFindSurah surahs (some n) = none →
      (getSurah env c n ed).value = none) ∧
    (getHadithById henv c2 id).eff.remoteCalls = 2 := by
  obtain ⟨hm, hrem, hne, hm2, hm3, hrem2, hne2⟩ := h
  have hsucc : env.remoteSurah.success = false := by
    rw [hrem]
    rcases hne with h | h
    · cases d <;> simp [HttpResult.success, h]
    · subst h
      simp [HttpResult.success]
  have hsucc2 : henv.remoteHadithById.success = false := by
    rw [hrem2]
    rcases hne2 with h | h
    · cases d2 <;> simp [HttpResult.success, h]
    · subst h
      simp [HttpResult.success]
  refine ⟨?_, ?_, ?_⟩
  · simp only [getSurah, hm]
    split
    · rename_i heq
      rw [heq] at hsucc
      simp [HttpResult.success] at hsucc
    · split
      · rfl
      · split <;> rfl
  · intro surahs hok hfind
    simp only [getSurah, hm, hok, hfind]
    split
    · rename_i heq
      rw [heq] at hsucc
      simp [HttpResult.success] at hsucc
    · simp [hok, hfind]
  · have hsr := getHadiths_remote_one henv c2
      [("hadithNumber", .s (toString id)), ("paginate", .n 1)] hm3
    simp only [getHadithById, hm2]
    split
    · rename_i heq
      rw [heq] at hsucc2
      simp [HttpResult.success] at hsucc2
    · rename_i heq
      rw [hrem2] at heq
      cases heq
    · rename_i heq
      rw [hrem2] at heq
      cases heq
    · repeat' split
      all_goals simp [Effects.app, hsr]

/-- Witness for the amended C3 at concrete inputs. -/
theorem C3_empty_payload_falls_back_witness :
    (redisGet emptyCache (surahCacheKey 2 (jsOr none DEFAULT_ARABIC_EDITION)) = none ∧
      qEnvSurahEmptyPayload.remoteSurah = .ok 200 none ∧
      ((200 : Nat) ≠ 200 ∨ (none : Option QuranApiSurah) = none) ∧
      redisGet emptyCache ("hadith:id:" ++ toString 1) = none ∧
      redisGet emptyCache
        (hadithsCacheKey [("hadithNumber", .s (toString 1)), ("paginate", .n 1)]) = none ∧
      hEnvByIdEmptyPayload.remoteHadithById = .ok 200 none ∧
      ((200 : Nat) ≠ 200 ∨ (none : Option HadithApiHadith) = none)) ∧
    ((getSurah qEnvSurahEmptyPayload emptyCache 2 none).eff.mirrorCalls = 1 ∧
      (∀ surahs, qEnvSurahEmptyPayload.mirror = .ok surahs →
        mirrorFindSurah surahs (some 2) = none →
        (getSurah qEnvSurahEmptyPayload emptyCache 2 none).value = none) ∧
      (getHadithById hEnvByIdEmptyPayload emptyCache 1).eff.remoteCalls = 2) :=
  ⟨by decide,
    C3_empty_payload_falls_back qEnvSurahEmptyPayload hEnvByIdEmptyPayload emptyCache emptyCache
      2 1 none 200 200 none none (by decide)⟩

/-- Claim C9: for a reference without a `':'` separator (in particular a
purely numeric global ayah number), a cache miss followed by a failed
remote attempt makes `getAyah` return `null` and
`getAyahMultipleEditions` return `{}` immediately, with zero mirror
queries and the cache untouched: no fallback tier exists for such
references. -/
theorem C9_no_fallback_for_numeric_refs (env : QuranEnv) (c c2 : RedisState) (r r2 : Ref)
    (ed : Option String) (editions : List String)
    (h : r.hasColon = false ∧ r2.hasColon = false ∧
      redisGet c (ayahCacheKey r (jsOr ed DEFAULT_ARABIC_EDITION)) = none ∧
      redisGet c2 (ayahMultiCacheKey r2 editions) = none ∧
      env.remoteAyah.success = false ∧
      env.remoteAyahMulti.success = false) :
    (getAyah env c r ed).value = none ∧
    (getAyah env c r ed).eff.mirrorCalls = 0 ∧
    (getAyah env c r ed).cache = c ∧
    (getAyahMultipleEditions env c2 r2 editions).value = [] ∧
    (getAyahMultipleEditions env c2 r2 editions).eff.mirrorCalls = 0 ∧
    (getAyahMultipleEditions env c2 r2 editions).cache = c2 := by
  obtain ⟨hcol, hcol2, hm, hm2, hr, hr2⟩ := h
  have h1 : (getAyah env c r ed) =
      ⟨none, c, ⟨[ayahCacheKey r (jsOr ed DEFAULT_ARABIC_EDITION)], [], 1, 0⟩⟩ := by
    simp only [getAyah, hm]
    split
    · rename_i heq
      rw [heq] at hr
      simp [HttpResult.success] at hr
    · simp [hcol]
  have h2 : (getAyahMultipleEditions env c2 r2 editions) =
      ⟨[], c2, ⟨[ayahMultiCacheKey r2 editions], [], 1, 0⟩⟩ := by
    simp only [getAyahMultipleEditions, hm2]
    split
    · rename_i heq
      rw [heq] at hr2
      simp [HttpResult.success] at hr2
    · simp [hcol2]
  rw [h1, h2]
  exact ⟨rfl, rfl, rfl, rfl, rfl, rfl⟩

/-- Witness for C9 at concrete inputs: a numeric reference and a
colon-free string reference against a downed remote. -/
theorem C9_no_fallback_for_numeric_refs_witness :
    ((Ref.num 262).hasColon = false ∧ (Ref.str "262").hasColon = false ∧
      redisGet emptyCache (ayahCacheKey (.num 262) (jsOr none DEFAULT_ARABIC_EDITION)) = none ∧
      redisGet emptyCache (ayahMultiCacheKey (.str "262") ["quran-uthmani"]) = none ∧
      qEnvRemoteDown.remoteAyah.success = false ∧
      qEnvRemoteDown.remoteAyahMulti.success = false) ∧
    ((getAyah qEnvRemoteDown emptyCache (.num 262) none).value = none ∧
      (getAyah qEnvRemoteDown emptyCache (.num 262) none).eff.mirrorCalls = 0 ∧
      (getAyah qEnvRemoteDown emptyCache (.num 262) none).cache = emptyCache ∧
      (getAyahMultipleEditions qEnvRemoteDown emptyCache (.str "262") ["quran-uthmani"]).value = [] ∧
      (getAyahMultipleEditions qEnvRemoteDown emptyCache (.str "262")
        ["quran-uthmani"]).eff.mirrorCalls = 0 ∧
      (getAyahMultipleEditions qEnvRemoteDown emptyCache (.str "262")
        ["quran-uthmani"]).cache = emptyCache) :=
  ⟨by decide,
    C9_no_fallback_for_numeric_refs qEnvRemoteDown emptyCache emptyCache (.num 262) (.str "262")
      none ["quran-uthmani"] (by decide)⟩

/-- Claim C10: whenever one of the text-search fields `hadithEnglish`,
`hadithUrdu`, `hadithArabic` is present (with a truthy value, which is
how the source tests presence), `getHadiths` neither reads from nor
writes to the cache — the cache state is returned unchanged and no cache
operation is attempted — and the result is recomputed, starting with a
remote attempt, on every call. -/
theorem C10_text_search_bypasses_cache (env : HadithEnv) (c : RedisState) (filters : HFilters)
    (hs : isTextSearch filters = true) :
    (getHadiths env c filters).cache = c ∧
    (getHadiths env c filters).eff.cacheGets = [] ∧
    (getHadiths env c filters).eff.cacheSets = [] ∧
    (getHadiths env c filters).eff.remoteCalls = 1 := by
  simp only [getHadiths, hs, if_true]
  split
  · exact ⟨rfl, rfl, rfl, rfl⟩
  · split <;> exact ⟨rfl, rfl, rfl, rfl⟩

/-- Witness for C10 at a concrete text-search filter object. -/
theorem C10_text_search_bypasses_cache_witness :
    isTextSearch [("hadithEnglish", .s "mercy")] = true ∧
    ((getHadiths hEnvRemoteDown emptyCache [("hadithEnglish", .s "mercy")]).cache = emptyCache ∧
      (getHadiths hEnvRemoteDown emptyCache [("hadithEnglish", .s "mercy")]).eff.cacheGets = [] ∧
      (getHadiths hEnvRemoteDown emptyCache [("hadithEnglish", .s "mercy")]).eff.cacheSets = [] ∧
      (getHadiths hEnvRemoteDown emptyCache [("hadithEnglish", .s "mercy")]).eff.remoteCalls = 1) :=
  ⟨by decide,
    C10_text_search_bypasses_cache hEnvRemoteDown emptyCache [("hadithEnglish", .s "mercy")]
      (by decide)⟩

/-- Cache reads of `getHadiths` only ever use its own cache key. -/
theorem getHadiths_cacheGets_key (env : HadithEnv) (c : RedisState) (f : HFilters) :
    ∀ k ∈ (getHadiths env c f).eff.cacheGets, k = hadithsCacheKey f := by
  simp only [getHadiths]
  repeat' split
  all_goals intro k hk
  all_goals simp_all

/-- Cache writes of `getHadiths` only ever use its own cache key. -/
theorem getHadiths_cacheSets_key (env : HadithEnv) (c : RedisState) (f : HFilters) :
    ∀ p ∈ (getHadiths env c f).eff.cacheSets, p.1 = hadithsCacheKey f := by
  simp only [getHadiths]
  repeat' split
  all_goals intro p hp
  all_goals simp_all

/-- Counterexample to claim C4 as stated: two filter objects with
exactly the same key-value pairs, inserted in different orders, produce
different cache-key strings for both `getHadiths` and `getEditions`
(`JSON.stringify` preserves property insertion order). -/
theorem C4_counterexample :
    [("paginate", FVal.n 10), ("page", FVal.n 1)].Perm
      [("page", FVal.n 1), ("paginate", FVal.n 10)] ∧
    hadithsCacheKey [("paginate", FVal.n 10), ("page", FVal.n 1)] ≠
      hadithsCacheKey [("page", FVal.n 1), ("paginate", FVal.n 10)] ∧
    [("format", FVal.s "text"), ("language", FVal.s "en")].Perm
      [("language", FVal.s "en"), ("format", FVal.s "text")] ∧
    editionsCacheKey (some [("format", FVal.s "text"), ("language", FVal.s "en")]) ≠
      editionsCacheKey (some [("language", FVal.s "en"), ("format", FVal.s "text")]) := by
  refine ⟨List.Perm.swap _ _ _, by decide, List.Perm.swap _ _ _, by decide⟩

/-- Claim C4 (amended): the cache key is a deterministic function of the
operation name and the insertion-ordered parameter list — two filter
objects whose ordered (name, serialized value) lists agree yield the same
key — and every cache read and write `getHadiths` performs uses exactly
that key; keys are however not invariant under re-ordering the
properties (see the counterexample). -/
theorem C4_keys_deterministic_in_field_order (f g : HFilters) (env : HadithEnv) (c : RedisState)
    (hfg : f.map (fun p => (p.1, p.2.render)) = g.map (fun p => (p.1, p.2.render))) :
    hadithsCacheKey f = hadithsCacheKey g ∧
    editionsCacheKey (some f) = editionsCacheKey (some g) ∧
    (∀ k ∈ (getHadiths env c f).eff.cacheGets, k = hadithsCacheKey f) ∧
    (∀ p ∈ (getHadiths env c f).eff.cacheSets, p.1 = hadithsCacheKey f) := by
  have hser : jsonStringifyObj f = jsonStringifyObj g := by
    unfold jsonStringifyObj
    have h1 : f.map (fun p => "\"" ++ p.1 ++ "\":" ++ p.2.render) =
        (f.map (fun p => (p.1, p.2.render))).map (fun q => "\"" ++ q.1 ++ "\":" ++ q.2) := by
      rw [List.map_map]
      rfl
    have h2 : g.map (fun p => "\"" ++ p.1 ++ "\":" ++ p.2.render) =
        (g.map (fun p => (p.1, p.2.render))).map (fun q => "\"" ++ q.1 ++ "\":" ++ q.2) := by
      rw [List.map_map]
      rfl
    rw [h1, h2, hfg]
  refine ⟨?_, ?_, getHadiths_cacheGets_key env c f, getHadiths_cacheSets_key env c f⟩
  · unfold hadithsCacheKey
    rw [hser]
  · unfold editionsCacheKey
    simp only [Option.getD_some]
    rw [hser]

/-- Witness for the amended C4 at a concrete filter object. -/
theorem C4_keys_deterministic_in_field_order_witness :
    ([("book", FVal.s "sahih-bukhari")].map (fun p => (p.1, p.2.render)) =
      [("book", FVal.s "sahih-bukhari")].map (fun p => (p.1, p.2.render))) ∧
    (hadithsCacheKey [("book", FVal.s "sahih-bukhari")] =
      hadithsCacheKey [("book", FVal.s "sahih-bukhari")] ∧
    editionsCacheKey (some [("book", FVal.s "sahih-bukhari")]) =
      editionsCacheKey (some [("book", FVal.s "sahih-bukhari")]) ∧
    (∀ k ∈ (getHadiths hEnvRemoteDown emptyCache [("book", FVal.s "sahih-bukhari")]).eff.cacheGets,
      k = hadithsCacheKey [("book", FVal.s "sahih-bukhari")]) ∧
    (∀ p ∈ (getHadiths hEnvRemoteDown emptyCache [("book", FVal.s "sahih-bukhari")]).eff.cacheSets,
      p.1 = hadithsCacheKey [("book", FVal.s "sahih-bukhari")])) :=
  ⟨by decide,
    C4_keys_deterministic_in_field_order [("book", FVal.s "sahih-bukhari")]
      [("book", FVal.s "sahih-bukhari")] hEnvRemoteDown emptyCache (by decide)⟩

/-- Counterexample to claim C5 as stated: `searchQuran` performs no
caching at all, so two calls with identical parameters perform two
remote/mirror accesses in total (not one), and the second call is not
served from the cache. -/
theorem C5_counterexample :
    ((searchQuran qEnvRemoteOk emptyCache "deity" .all none none).eff.remoteCalls +
      (searchQuran qEnvRemoteOk emptyCache "deity" .all none none).eff.mirrorCalls) +
    ((searchQuran qEnvRemoteOk
        (searchQuran qEnvRemoteOk emptyCache "deity" .all none none).cache
        "deity" .all none none).eff.remoteCalls +
      (searchQuran qEnvRemoteOk
        (searchQuran qEnvRemoteOk emptyCache "deity" .all none none).cache
        "deity" .all none none).eff.mirrorCalls) = 2 ∧
    (searchQuran qEnvRemoteOk emptyCache "deity" .all none none).eff.cacheGets = [] ∧
    (searchQuran qEnvRemoteOk emptyCache "deity" .all none none).eff.cacheSets = [] ∧
    (searchQuran qEnvRemoteOk emptyCache "deity" .all none none).cache = emptyCache := by
  decide

/-- Claim C5 (amended): for the cache-backed operations, once a call
returns a found result against an available cache, a second call with
identical parameters (within the TTL — no expiry occurs between the
calls) returns the identical value as a pure cache hit: zero remote
calls, zero mirror calls, cache state unchanged. Shown for `getSurah`;
`searchQuran` is uncached and excluded (see the counterexample). -/
theorem C5_second_call_is_pure_cache_hit (env : QuranEnv) (c : RedisState) (n : Nat)
    (ed : Option String) (v : QuranApiSurah)
    (hav : c.available = true)
    (h1 : (getSurah env c n ed).value = some v) :
    (getSurah env (getSurah env c n ed).cache n ed).value = some v ∧
    (getSurah env (getSurah env c n ed).cache n ed).eff.remoteCalls = 0 ∧
    (getSurah env (getSurah env c n ed).cache n ed).eff.mirrorCalls = 0 ∧
    (getSurah env (getSurah env c n ed).cache n ed).cache = (getSurah env c n ed).cache := by
  cases hget : redisGet c (surahCacheKey n (jsOr ed DEFAULT_ARABIC_EDITION)) with
  | some w =>
    have e1 : getSurah env c n ed =
        ⟨w.asSurah, c, ⟨[surahCacheKey n (jsOr ed DEFAULT_ARABIC_EDITION)], [], 0, 0⟩⟩ := by
      simp only [getSurah, hget]
    rw [e1] at h1
    simp only [e1, getSurah, hget]
    refine ⟨?_, ?_, ?_, ?_⟩ <;> first | exact h1 | trivial
  | none =>
    revert h1
    simp only [getSurah, hget]
    split
    · rename_i surah heq
      intro h1
      have hv : surah = v := by simpa using h1
      subst hv
      have hg2 : redisGet (redisSet c (surahCacheKey n (jsOr ed DEFAULT_ARABIC_EDITION))
          (.surah surah) (some 43200)).2 (surahCacheKey n (jsOr ed DEFAULT_ARABIC_EDITION)) =
          some (.surah surah) :=
        redisGet_redisSet_same c _ _ _ hav
      simp only [getSurah, hg2]
      refine ⟨?_, ?_, ?_, ?_⟩ <;> trivial
    · split
      · intro h1
        simp at h1
      · split
        · intro h1
          simp at h1
        · rename_i surah hfind
          intro h1
          have hv : (if jsOr ed DEFAULT_ARABIC_EDITION = DEFAULT_ARABIC_EDITION ∨
                jsOr ed DEFAULT_ARABIC_EDITION = "" then
              transformSurahToApiFormat surah
            else if jsStartsWith (jsOr ed DEFAULT_ARABIC_EDITION) "en." = true then
              { number := surah.number, name := surah.nameArabic, englishName := surah.name,
                englishNameTranslation := surah.nameTranslation,
                revelationType := surah.revelationType,
                ayahs := surah.ayahs.map englishAyahLiteral }
            else transformSurahToApiFormat surah) = v := by
            simpa using h1
          have hg2 : redisGet (redisSet c (surahCacheKey n (jsOr ed DEFAULT_ARABIC_EDITION))
              (.surah v) (some 3600)).2 (surahCacheKey n (jsOr ed DEFAULT_ARABIC_EDITION)) =
              some (.surah v) :=
            redisGet_redisSet_same c _ _ _ hav
          rw [hv]
          simp only [getSurah, hg2]
          refine ⟨?_, ?_, ?_, ?_⟩ <;> trivial

/-- Witness for the amended C5 at concrete inputs: a remote-served first
call, then a second call on the updated cache. -/
theorem C5_second_call_is_pure_cache_hit_witness :
    (emptyCache.available = true ∧
      (getSurah qEnvRemoteOk emptyCache 2 none).value = some sampleApiSurah) ∧
    ((getSurah qEnvRemoteOk (getSurah qEnvRemoteOk emptyCache 2 none).cache 2 none).value =
        some sampleApiSurah ∧
      (getSurah qEnvRemoteOk (getSurah qEnvRemoteOk emptyCache 2 none).cache 2 none).eff.remoteCalls = 0 ∧
      (getSurah qEnvRemoteOk (getSurah qEnvRemoteOk emptyCache 2 none).cache 2 none).eff.mirrorCalls = 0 ∧
      (getSurah qEnvRemoteOk (getSurah qEnvRemoteOk emptyCache 2 none).cache 2 none).cache =
        (getSurah qEnvRemoteOk emptyCache 2 none).cache) :=
  ⟨by decide,
    C5_second_call_is_pure_cache_hit qEnvRemoteOk emptyCache 2 none sampleApiSurah
      (by decide) (by decide)⟩

/-- Claim C6: for each operation that writes the cache on both paths,
the TTL seconds passed to the cache write after a fallback-sourced
result is less than or equal to the TTL passed after a remote-sourced
result: `getSurah` 3600 vs 43200, `getAyah` 86400 vs 86400, `getBooks`
3600 vs 86400. -/
theorem C6_fallback_ttl_le_remote_ttl
    (env1 env2 : QuranEnv) (henv1 henv2 : HadithEnv) (c1 c2 c3 c4 c5 c6 : RedisState)
    (n : Nat) (ed ed2 : Option String) (r : Ref)
    (s : QuranApiSurah) (a : QuranApiAyah) (surahs : List MongoSurah) (m : MongoSurah)
    (ma : MongoAyah) (bs : List HadithApiBook) (hs : List MongoHadith)
    (h : (redisGet c1 (surahCacheKey n (jsOr ed DEFAULT_ARABIC_EDITION)) = none ∧
        env1.remoteSurah = .ok 200 (some s) ∧
        redisGet c2 (surahCacheKey n (jsOr ed DEFAULT_ARABIC_EDITION)) = none ∧
        env2.remoteSurah.success = false ∧
        env2.mirror = .ok surahs ∧
        mirrorFindSurah surahs (some n) = some m) ∧
      (redisGet c3 (ayahCacheKey r (jsOr ed2 DEFAULT_ARABIC_EDITION)) = none ∧
        env1.remoteAyah = .ok 200 (some a) ∧
        redisGet c4 (ayahCacheKey r (jsOr ed2 DEFAULT_ARABIC_EDITION)) = none ∧
        env2.remoteAyah.success = false ∧
        r.hasColon = true ∧
        mirrorFindSurah surahs (r.parse).1 = some m ∧
        m.ayahs.find? (fun x =>
          match (r.parse).2 with
          | some k => x.numberInSurah == k
          | none => false) = some ma) ∧
      (redisGet c5 "hadith:books" = none ∧
        henv1.remoteBooks = .ok 200 (some bs) ∧
        redisGet c6 "hadith:books" = none ∧
        henv2.remoteBooks.success = false ∧
        henv2.mirror = .ok hs ∧
        (fallbackBooks hs).isEmpty = false)) :
    ((getSurah env1 c1 n ed).eff.cacheSets =
      [(surahCacheKey n (jsOr ed DEFAULT_ARABIC_EDITION), some 43200)] ∧
     (getSurah env2 c2 n ed).eff.cacheSets =
      [(surahCacheKey n (jsOr ed DEFAULT_ARABIC_EDITION), some 3600)] ∧
     (3600 : Nat) ≤ 43200) ∧
    ((getAyah env1 c3 r ed2).eff.cacheSets =
      [(ayahCacheKey r (jsOr ed2 DEFAULT_ARABIC_EDITION), some 86400)] ∧
     (getAyah env2 c4 r ed2).eff.cacheSets =
      [(ayahCacheKey r (jsOr ed2 DEFAULT_ARABIC_EDITION), some 86400)] ∧
     (86400 : Nat) ≤ 86400) ∧
    ((getBooks henv1 c5).eff.cacheSets = [("hadith:books", some 86400)] ∧
     (getBooks henv2 c6).eff.cacheSets = [("hadith:books", some 3600)] ∧
     (3600 : Nat) ≤ 86400) := by
  obtain ⟨⟨hm1, hr1, hm2, hr2, hmir2, hfind2⟩,
    ⟨hm3, hr3, hm4, _hr4, hcol, hfinds, hfinda⟩,
    ⟨hm5, hr5, hm6, hr6, hmirb, hbooks⟩⟩ := h
  refine ⟨⟨?_, ?_, by norm_num⟩, ⟨?_, ?_, le_refl _⟩, ⟨?_, ?_, by norm_num⟩⟩
  · simp only [getSurah, hm1, hr1]
  · simp only [getSurah, hm2]
    split
    · rename_i heq
      rw [heq] at hr2
      simp [HttpResult.success] at hr2
    · simp [hmir2, hfind2]
  · simp only [getAyah, hm3, hr3]
  · simp only [getAyah, hm4]
    split
    · rfl
    · simp only [hcol, if_true]
      simp [hmir2, hfinds, hfinda]
  · simp only [getBooks, hm5, hr5]
  · simp only [getBooks, hm6]
    split
    · rename_i heq
      rw [heq] at hr6
      simp [HttpResult.success] at hr6
    · simp [hmirb, hbooks]

/-- Witness for C6 at concrete inputs: remote-served and fallback-served
runs of `getSurah`, `getAyah` and `getBooks`. -/
theorem C6_fallback_ttl_le_remote_ttl_witness :
    (redisGet emptyCache (surahCacheKey 2 (jsOr none DEFAULT_ARABIC_EDITION)) = none ∧
      qEnvRemoteOk.remoteSurah = .ok 200 (some sampleApiSurah) ∧
      qEnvRemoteDown.remoteSurah.success = false ∧
      qEnvRemoteDown.mirror = .ok [sampleMongoSurah] ∧
      mirrorFindSurah [sampleMongoSurah] (some 2) = some sampleMongoSurah ∧
      redisGet emptyCache (ayahCacheKey (.str "2:255") (jsOr none DEFAULT_ARABIC_EDITION)) = none ∧
      qEnvRemoteOk.remoteAyah = .ok 200 (some sampleApiAyah) ∧
      qEnvRemoteDown.remoteAyah.success = false ∧
      (Ref.str "2:255").hasColon = true ∧
      mirrorFindSurah [sampleMongoSurah] ((Ref.str "2:255").parse).1 = some sampleMongoSurah ∧
      sampleMongoSurah.ayahs.find? (fun x =>
        match ((Ref.str "2:255").parse).2 with
        | some k => x.numberInSurah == k
        | none => false) = some sampleMongoAyah ∧
      redisGet emptyCache "hadith:books" = none ∧
      hEnvBooksOk.remoteBooks = .ok 200 (some [sampleHadithBook]) ∧
      hEnvRemoteDown.remoteBooks.success = false ∧
      hEnvRemoteDown.mirror = .ok [sampleMongoHadith] ∧
      (fallbackBooks [sampleMongoHadith]).isEmpty = false) ∧
    (((getSurah qEnvRemoteOk emptyCache 2 none).eff.cacheSets =
        [(surahCacheKey 2 (jsOr none DEFAULT_ARABIC_EDITION), some 43200)] ∧
      (getSurah qEnvRemoteDown emptyCache 2 none).eff.cacheSets =
        [(surahCacheKey 2 (jsOr none DEFAULT_ARABIC_EDITION), some 3600)] ∧
      (3600 : Nat) ≤ 43200) ∧
    ((getAyah qEnvRemoteOk emptyCache (.str "2:255") none).eff.cacheSets =
        [(ayahCacheKey (.str "2:255") (jsOr none DEFAULT_ARABIC_EDITION), some 86400)] ∧
      (getAyah qEnvRemoteDown emptyCache (.str "2:255") none).eff.cacheSets =
        [(ayahCacheKey (.str "2:255") (jsOr none DEFAULT_ARABIC_EDITION), some 86400)] ∧
      (86400 : Nat) ≤ 86400) ∧
    ((getBooks hEnvBooksOk emptyCache).eff.cacheSets = [("hadith:books", some 86400)] ∧
      (getBooks hEnvRemoteDown emptyCache).eff.cacheSets = [("hadith:books", some 3600)] ∧
      (3600 : Nat) ≤ 86400)) :=
  ⟨by decide,
    C6_fallback_ttl_le_remote_ttl qEnvRemoteOk qEnvRemoteDown hEnvBooksOk hEnvRemoteDown
      emptyCache emptyCache emptyCache emptyCache emptyCache emptyCache 2 none none
      (.str "2:255") sampleApiSurah sampleApiAyah [sampleMongoSurah] sampleMongoSurah
      sampleMongoAyah [sampleHadithBook] [sampleMongoHadith] (by decide)⟩

/-- Every value of the `QuranApiAyah` type serializes to the declared shape. -/
theorem encodeQuranAyah_shape (a : QuranApiAyah) :
    isQuranApiAyahJson (encodeQuranAyah a) = true := by
  cases ha : a.audio <;> cases hs : a.audioSecondary <;>
    simp [isQuranApiAyahJson, encodeQuranAyah, reqField, optField, ha, hs, List.find?,
      Json.isNum, Json.isStr, Json.isBool, Json.isStrArr]

/-- Encoded ayah lists pass the element-wise shape check. -/
theorem encodeQuranAyah_list_shape (l : List QuranApiAyah) :
    (l.map encodeQuranAyah).all isQuranApiAyahJson = true := by
  induction l with
  | nil => rfl
  | cons x xs ih => simp [List.all, encodeQuranAyah_shape x, ih]

/-- Every value of the `QuranApiSurah` type serializes to the declared shape. -/
theorem encodeQuranSurah_shape (r : QuranApiSurah) :
    isQuranApiSurahJson (encodeQuranSurah r) = true := by
  cases hrev : r.revelationType <;>
    simp [isQuranApiSurahJson, encodeQuranSurah, reqField, hrev, List.find?,
      Json.isNum, Json.isStr, encodeQuranAyah_list_shape]

/-- Every value of the `HadithApiBook` type serializes to the declared shape. -/
theorem encodeHadithBook_shape (b : HadithApiBook) :
    isHadithApiBookJson (encodeHadithBook b) = true := by
  cases hw : b.aboutWriter <;>
    simp [isHadithApiBookJson, encodeHadithBook, reqField, hw, List.find?,
      Json.isNum, Json.isStr]

/-- Every value of the `HadithApiChapter` type serializes to the declared shape. -/
theorem encodeHadithChapter_shape (ch : HadithApiChapter) :
    isHadithApiChapterJson (encodeHadithChapter ch) = true := by
  simp [isHadithApiChapterJson, encodeHadithChapter, reqField, List.find?,
    Json.isNum, Json.isStr]

/-- Every value of the `HadithApiHadith` type serializes to the declared shape. -/
theorem encodeHadith_shape (h : HadithApiHadith) :
    isHadithApiHadithJson (encodeHadith h) = true := by
  simp [isHadithApiHadithJson, encodeHadith, reqField, List.find?,
    Json.isNum, Json.isStr, encodeHadithBook_shape, encodeHadithChapter_shape]

/-- Claim C7: shape equivalence — the mirror-fallback transforms
(`transformSurahToApiFormat`, `transformAyahToApiFormat`, the inlined
English-edition literal, and `transformHadithToApiFormat`) produce
values of exactly the `QuranApiSurah` / `QuranApiAyah` /
`HadithApiHadith` interface shapes, the same field set and field types
any remote success payload serializes to, so callers never branch on
which source served them. -/
theorem C7_shape_equivalence (s : MongoSurah) (r : QuranApiSurah) (a : MongoAyah)
    (ra : QuranApiAyah) (h : MongoHadith) (rh : HadithApiHadith) :
    isQuranApiSurahJson (encodeQuranSurah (transformSurahToApiFormat s)) = true ∧
    isQuranApiSurahJson (encodeQuranSurah r) = true ∧
    isQuranApiAyahJson (encodeQuranAyah (transformAyahToApiFormat a)) = true ∧
    isQuranApiAyahJson (encodeQuranAyah ra) = true ∧
    isQuranApiAyahJson (encodeQuranAyah (englishAyahLiteral a)) = true ∧
    isHadithApiHadithJson (encodeHadith (transformHadithToApiFormat h)) = true ∧
    isHadithApiHadithJson (encodeHadith rh) = true :=
  ⟨encodeQuranSurah_shape _, encodeQuranSurah_shape r, encodeQuranAyah_shape _,
    encodeQuranAyah_shape ra, encodeQuranAyah_shape _, encodeHadith_shape _,
    encodeHadith_shape rh⟩

/-- Counterexample to claim C8 as stated: when the English-translation
fetch is still failing after its three attempts, the seeding job does
not abort — it completes successfully (with empty translations). -/
theorem C8_counterexample :
    (retryGo seedEnvEnglishFails.english 0 3).value = none ∧
    (retryGo seedEnvEnglishFails.english 0 3).attempts = 3 ∧
    (seedQuran seedEnvEnglishFails).toOption.isSome = true := by
  decide

/-- Claim C8 (amended): each seeding fetch makes at most 3 attempts with
a fixed 2000 ms backoff delay between attempts; exhausted retries of the
Arabic-text or metadata fetch abort the whole job, but exhausted retries
of the English-translation fetch do not abort — the job continues and
seeds every ayah with an empty `text`/`translation`. -/
theorem C8_retry_and_abort_policy (env : SeedEnv) (f : Nat → FetchOutcome QuranData)
    (i r : Nat) :
    (retryGo f i r).attempts ≤ r ∧
    (∀ d ∈ (retryGo f i r).delays, d = 2000) ∧
    ((retryGo env.arabic 0 3).value = none → seedQuran env = .error "arabic") ∧
    (∀ ad, (retryGo env.arabic 0 3).value = some ad →
      (retryGo env.meta 0 3).value = none → seedQuran env = .error "meta") ∧
    (∀ ad ms, (retryGo env.arabic 0 3).value = some ad →
      (retryGo env.english 0 3).value = none →
      (retryGo env.meta 0 3).value = some ms →
      (seedQuran env).toOption.isSome = true ∧
      (∀ out, seedQuran env = .ok out → ∀ doc ∈ out.docs, ∀ ay ∈ doc.ayahs,
        ay.text = "" ∧ ay.translation = some "")) := by
  refine ⟨?_, ?_, ?_, ?_, ?_⟩
  · induction r generalizing i with
    | zero => simp [retryGo]
    | succ k ih =>
      simp only [retryGo]
      cases f i with
      | ok v => simp
      | err =>
        by_cases hk : k = 0
        · simp [hk]
        · simp only [if_neg hk]
          have := ih (i + 1)
          omega
  · induction r generalizing i with
    | zero => simp [retryGo]
    | succ k ih =>
      simp only [retryGo]
      cases f i with
      | ok v => simp
      | err =>
        by_cases hk : k = 0
        · simp [hk]
        · simp only [if_neg hk]
          intro d hd
          simp only [List.mem_cons] at hd
          rcases hd with h | h
          · exact h
          · exact ih (i + 1) d h
  · intro har
    simp only [seedQuran, har]
  · intro ad har hme
    simp only [seedQuran, har, hme]
  · intro ad ms har hen hme
    constructor
    · simp only [seedQuran, har, hen, hme]
      rfl
    · intro out hout doc hdoc ay hay
      simp only [seedQuran, har, hen, hme] at hout
      have hout2 := Except.ok.inj hout
      subst hout2
      simp only [List.mem_filterMap] at hdoc
      obtain ⟨m, hm, hsome⟩ := hdoc
      cases hfind : ad.surahs.find? (fun s => s.number == m.number) with
      | none =>
        rw [hfind] at hsome
        cases hsome
      | some arabicSurah =>
        rw [hfind] at hsome
        simp only [Option.some.injEq] at hsome
        subst hsome
        simp only [List.mem_map] at hay
        obtain ⟨p, hp, hay2⟩ := hay
        subst hay2
        simp [jsOr]

/-- Witness for the amended C8 at concrete seeding environments. -/
theorem C8_retry_and_abort_policy_witness :
    ((retryGo seedEnvArabicFails.arabic 0 3).value = none ∧
      (retryGo seedEnvEnglishFails.arabic 0 3).value = some ⟨[sampleApiSurah]⟩ ∧
      (retryGo seedEnvEnglishFails.english 0 3).value = none ∧
      (retryGo seedEnvEnglishFails.meta 0 3).value = some [sampleSurahMeta]) ∧
    ((retryGo seedEnvEnglishFails.english 0 3).attempts ≤ 3 ∧
      seedQuran seedEnvArabicFails = .error "arabic" ∧
      (seedQuran seedEnvEnglishFails).toOption.isSome = true) :=
  ⟨by decide,
    ⟨(C8_retry_and_abort_policy seedEnvEnglishFails seedEnvEnglishFails.english 0 3).1,
      (C8_retry_and_abort_policy seedEnvArabicFails seedEnvArabicFails.english 0 3).2.2.1
        (by decide),
      ((C8_retry_and_abort_policy seedEnvEnglishFails seedEnvEnglishFails.english 0 3).2.2.2.2
        ⟨[sampleApiSurah]⟩ [sampleSurahMeta] (by decide) (by decide) (by decide)).1⟩⟩
